import Mathlib

/-!
# FlappyBingus — deterministic simulation & replay subsystem, shallow embedding

A shallow embedding of the deterministic simulation core of the FlappyBingus
repository (public/js/util.js, public/js/game.js, public/js/main.js,
public/js/config.js), together with theorems settling the frozen claims
C1..C10 about it.

Modelling conventions:
* JS numbers are embedded as `ℚ`.  The transcendental primitives the code
  uses (`Math.exp`, `Math.cos`, `Math.sin`, `Math.hypot`, `Math.PI`) are
  abstracted as a parameter structure `Prims`; every theorem that does not
  depend on their analytic properties is quantified over all instantiations.
* JS 32-bit integer/bit operations (in the PRNG) are embedded as `ℕ`
  residues with explicit `% 2 ^ 32`; `Math.imul`, `>>>`, `<<`, `^`, `|`
  become modular multiplication, division by powers of two, multiplication
  plus `Nat.lor`/`Nat.xor` on values kept below `2 ^ 32`.
* The global swappable random source (`setRandSource` / `rand` in util.js)
  is embedded as a stream `src : ℕ → ℚ` together with a draw counter `rng`
  threaded through the game state; each call of `rand(a,b)` reads `src k`
  and bumps the counter.
* Rendering (canvas drawing), audio and the DOM are outside the simulation
  state; the background dots (`bgDots`), which the code mutates with the
  explicitly unseeded `Math.random` and never feeds back into gameplay,
  are likewise not part of the embedded state.
-/

namespace FlappyBingus

/-! ## util.js: numeric helpers -/

/-- util.js `clamp`: `(v, a, b) => Math.max(a, Math.min(b, v))`. -/
def clamp (v a b : ℚ) : ℚ := max a (min b v)

/-- util.js `lerp`: `(a, b, t) => a + (b - a) * t`. -/
def lerp (a b t : ℚ) : ℚ := a + (b - a) * t

/-- JS `x | 0` (ToInt32 truncation toward zero, for values in int32 range). -/
def jsTrunc (q : ℚ) : ℤ := if 0 ≤ q then ⌊q⌋ else -⌊-q⌋

/-- JS `Math.round`: half-up rounding (ties toward `+∞`). -/
def jsRound (q : ℚ) : ℤ := ⌊q + 1/2⌋

/-- JS `%` on numbers (remainder with the sign of the dividend). -/
def jsMod (x y : ℚ) : ℚ := x - y * (jsTrunc (x / y) : ℚ)

/-- JS `Number(v) || d`: a numeric config field with fallback `d`
(`0` is falsy, so a zero field yields the fallback). -/
def numOr (v d : ℚ) : ℚ := if v = 0 then d else v

/-- The abstracted transcendental primitives of `Math` used by the code. -/
structure Prims where
  exp : ℚ → ℚ
  cos : ℚ → ℚ
  sin : ℚ → ℚ
  hypot : ℚ → ℚ → ℚ
  pi : ℚ

/-- Result of util.js `norm2`. -/
structure Norm2 where
  (x y len : ℚ)

/-- util.js `norm2(x, y)`: normalise, with a `1e-9` degeneracy threshold. -/
def norm2 (pr : Prims) (x y : ℚ) : Norm2 :=
  let l := pr.hypot x y
  if l > 1/1000000000 then ⟨x / l, y / l, l⟩ else ⟨0, 0, 0⟩

/-- util.js `approach(cur, tgt, md)`. -/
def approach (cur tgt md : ℚ) : ℚ :=
  let d := tgt - cur
  if |d| ≤ md then tgt else cur + (if d > 0 then 1 else if d < 0 then -1 else 0) * md

/-- util.js `circleRect`: circle/axis-aligned-rectangle overlap test. -/
def circleRect (cx cy r rx ry rw rh : ℚ) : Bool :=
  let qx := clamp cx rx (rx + rw)
  let qy := clamp cy ry (ry + rh)
  let dx := cx - qx
  let dy := cy - qy
  decide ((dx * dx + dy * dy) ≤ r * r)

/-- util.js `circleCircle`: circle/circle overlap test. -/
def circleCircle (ax ay ar bx bby br : ℚ) : Bool :=
  let dx := ax - bx
  let dy := ay - bby
  let rr := ar + br
  decide ((dx * dx + dy * dy) ≤ rr * rr)

/-! ## util.js: seeded PRNG (xmur3 + mulberry32)

JS 32-bit values are represented by their unsigned residues `< 2 ^ 32`.
-/

/-- `2 ^ 32`, the modulus of JS 32-bit integer conversion. -/
def M32 : ℕ := 4294967296

/-- JS `Math.imul` on unsigned-residue representatives. -/
def imul (a b : ℕ) : ℕ := (a * b) % M32

/-- One iteration of the xmur3 string-mixing loop:
`h = Math.imul(h ^ c, 3432918353); h = (h << 13) | (h >>> 19)` (a 32-bit
rotate left by 13). -/
def xmur3Step (h0 c : ℕ) : ℕ :=
  let h := imul (h0 ^^^ c) 3432918353
  ((h * 2 ^ 13) % M32) ||| (h / 2 ^ 19)

/-- xmur3 state after hashing the seed string (char codes):
`h = 1779033703 ^ str.length`, then the mixing loop over the characters. -/
def xmur3Init (str : List ℕ) : ℕ :=
  str.foldl xmur3Step ((1779033703 ^^^ str.length) % M32)

/-- The single call of the xmur3 finaliser made by `createSeededRand`:
`h = imul(h ^ (h >>> 16), 2246822507); h = imul(h ^ (h >>> 13), 3266489909);
return (h ^= (h >>> 16)) >>> 0`. -/
def xmur3Out (h0 : ℕ) : ℕ :=
  let h1 := imul (h0 ^^^ h0 / 2 ^ 16) 2246822507
  let h2 := imul (h1 ^^^ h1 / 2 ^ 13) 3266489909
  (h2 ^^^ h2 / 2 ^ 16) % M32

/-- util.js `createSeededRand` seed derivation: `xmur3(String(seedStr))()`. -/
def seedOf (str : List ℕ) : ℕ := xmur3Out (xmur3Init str)

/-- mulberry32 state advance: `a += 0x6D2B79F5` (32-bit). -/
def mulberryStep (a : ℕ) : ℕ := (a + 1831565813) % M32

/-- mulberry32 output mixing of a state value `t0`:
`t = imul(t ^ (t >>> 15), t | 1); t ^= t + imul(t ^ (t >>> 7), t | 61);
return ((t ^ (t >>> 14)) >>> 0) / 4294967296`. -/
def mulberryVal (t0 : ℕ) : ℚ :=
  let t1 := imul (t0 ^^^ t0 / 2 ^ 15) (t0 ||| 1)
  let t2 := t1 ^^^ (t1 + imul (t1 ^^^ t1 / 2 ^ 7) (t1 ||| 61)) % M32
  (((t2 ^^^ t2 / 2 ^ 14) % M32 : ℕ) : ℚ) / 4294967296

/-- mulberry32 internal state after `k` advances from initial state `a0`. -/
def mulberryA (a0 : ℕ) : ℕ → ℕ
  | 0 => a0
  | k + 1 => mulberryStep (mulberryA a0 k)

/-- The `k`-th output (0-based) of `createSeededRand(seedStr)`: the closure
advances its state before mixing, so call `k` sees `k + 1` advances. -/
def mulberrySeq (str : List ℕ) (k : ℕ) : ℚ :=
  mulberryVal (mulberryA (seedOf str) (k + 1))

/-! ## util.js: RNG tape recorder / player -/

/-- util.js `createTapeRandRecorder(seedStr, tapeOut)`: call `k` draws the
`k`-th value of the wrapped `createSeededRand(seedStr)` stream and appends
it to the tape. -/
def recorderCall (seed : List ℕ) (k : ℕ) : ℚ := mulberrySeq seed k

/-- The tape contents after `n` recorder calls, in call order. -/
def recorderTape (seed : List ℕ) (n : ℕ) : List ℚ :=
  (List.range n).map (recorderCall seed)

/-- util.js `createTapeRandPlayer(tapeIn)`: call `i` returns `tapeIn[i]`,
or fails (`none`, modelling the thrown "RNG tape underrun" error) when the
tape is exhausted. -/
def tapePlayerCall (tapeIn : List ℚ) (i : ℕ) : Option ℚ :=
  if h : i < tapeIn.length then some (tapeIn.get ⟨i, h⟩) else none

/-! ## config.js: configuration record

Field layout follows `DEFAULT_CONFIG` in public/js/config.js; the `end`
field of `pipes.spawnInterval`/`pipes.speed` is spelled `endv` because
`end` is a Lean keyword.  Rendering-only fields (`pipes.colors`) are not
part of the simulation state and are omitted. -/

structure PlayerCfg where
  (maxSpeed accel friction sizeScale sizeMin sizeMax radiusScale : ℚ)

structure DifficultyCfg where
  (timeToMax scoreToMax mixTime mixScore : ℚ)

structure SpawnIntervalCfg where
  (start endv min max : ℚ)

structure SpeedCfg where
  (start endv : ℚ)

structure ThicknessCfg where
  (scale min max : ℚ)

structure GapCfg where
  (startScale endScale min max : ℚ)

structure SpecialCfg where
  (startCadence endCadence jitterMin jitterMax : ℚ)

structure PatternWeightsCfg where
  wall : ℚ × ℚ
  aimed : ℚ × ℚ

structure PipesCfg where
  difficulty : DifficultyCfg
  spawnInterval : SpawnIntervalCfg
  speed : SpeedCfg
  thickness : ThicknessCfg
  gap : GapCfg
  special : SpecialCfg
  patternWeights : PatternWeightsCfg

structure DashCfg where
  (cooldown duration speed : ℚ)

structure PhaseCfg where
  (cooldown duration : ℚ)

structure TeleportCfg where
  (cooldown range effectDuration burstParticles : ℚ)

structure SlowFieldCfg where
  (cooldown duration radius slowFactor : ℚ)

structure SkillsCfg where
  dash : DashCfg
  phase : PhaseCfg
  teleport : TeleportCfg
  slowField : SlowFieldCfg

structure OrbsCfg where
  enabled : Bool
  (intervalMin intervalMax maxOnScreen lifetime radius driftSpeedMin driftSpeedMax safeDistance : ℚ)

structure CatalystsCfg where
  orbs : OrbsCfg

structure PerfectCfg where
  enabled : Bool
  (bonus windowScale flashDuration : ℚ)

structure ScoringCfg where
  (pipeDodge orbBase orbComboBonus orbComboMax : ℚ)
  perfect : PerfectCfg

structure ComboBarCfg where
  (glowAt sparkleAt sparkleRate : ℚ)

structure UiCfg where
  comboBar : ComboBarCfg

structure Cfg where
  player : PlayerCfg
  pipes : PipesCfg
  skills : SkillsCfg
  catalysts : CatalystsCfg
  scoring : ScoringCfg
  ui : UiCfg

/-- `DEFAULT_CONFIG` from public/js/config.js. -/
def defaultConfig : Cfg where
  player := ⟨420, 2600, 16, 0.055, 28, 54, 0.38⟩
  pipes :=
    { difficulty := ⟨38, 120, 0.55, 0.45⟩
      spawnInterval := ⟨0.78, 0.23, 0.18, 0.90⟩
      speed := ⟨240, 560⟩
      thickness := ⟨0.055, 28, 64⟩
      gap := ⟨0.30, 0.20, 88, 190⟩
      special := ⟨3.8, 2.3, 0.2, 0.7⟩
      patternWeights := ⟨(0.18, 0.30), (0.26, 0.40)⟩ }
  skills :=
    { dash := ⟨1.15, 0.18, 900⟩
      phase := ⟨1.75, 0.40⟩
      teleport := ⟨2.10, 170, 0.35, 34⟩
      slowField := ⟨4.50, 1.80, 210, 0.58⟩ }
  catalysts := ⟨⟨true, 0.95, 1.65, 6, 10.0, 12, 10, 45, 120⟩⟩
  scoring := ⟨1, 5, 1, 30, ⟨true, 10, 0.075, 0.55⟩⟩
  ui := ⟨⟨8, 12, 28⟩⟩

/-! ## game.js: entities and game state -/

/-- The `STATE` enum of game.js (`MENU: 0, PLAY: 1, OVER: 2`). -/
inductive GState where
  | menu
  | play
  | over
deriving DecidableEq, Repr

/-- The four skill/action identifiers (keybinds.js `ACTIONS`). -/
inductive SkillName where
  | dash
  | phase
  | teleport
  | slowField
deriving DecidableEq, Repr

/-- Colors appearing in entity constructors: either a CSS literal string
or the `hsla(...)` builder of util.js, kept symbolic. -/
inductive Color where
  | css (s : String)
  | hsla (h s l a : ℚ)
deriving DecidableEq, Repr

/-- util.js `hsla(h, s, l, a)` (normalised arguments, kept symbolic). -/
def hslaColor (h s l a : ℚ) : Color :=
  Color.hsla (jsMod (jsMod h 360 + 360) 360) (clamp s 0 100) (clamp l 0 100) (clamp a 0 1)

/-- game.js `class Pipe` (an obstacle rectangle). -/
structure Pipe where
  (x y w h vx vy : ℚ)
  entered : Bool
  scored : Bool
deriving DecidableEq, Repr

/-- `Pipe` constructor: `entered`/`scored` start `false`. -/
def mkPipe (x y w h vx vy : ℚ) : Pipe := ⟨x, y, w, h, vx, vy, false, false⟩

def Pipe.cx (p : Pipe) : ℚ := p.x + p.w * 0.5

def Pipe.cy (p : Pipe) : ℚ := p.y + p.h * 0.5

/-- `Pipe.update(dt, mul, W, H)`. -/
def Pipe.update (p : Pipe) (dt mul W H : ℚ) : Pipe :=
  let x := p.x + p.vx * dt * mul
  let y := p.y + p.vy * dt * mul
  let entered :=
    if ¬p.entered then
      decide (x + p.w ≥ 0 ∧ x ≤ W ∧ y + p.h ≥ 0 ∧ y ≤ H)
    else true
  { p with x := x, y := y, entered := entered }

/-- `Pipe.off(W, H, m)`. -/
def Pipe.off (p : Pipe) (W H m : ℚ) : Bool :=
  decide (p.x > W + m ∨ p.x + p.w < -m ∨ p.y > H + m ∨ p.y + p.h < -m)

/-- Gate axis (`"x"` or `"y"` in game.js). -/
inductive Axis where
  | x
  | y
deriving DecidableEq, Repr

/-- game.js `class Gate`. -/
structure Gate where
  axis : Axis
  (pos prev v gapCenter gapHalf thick : ℚ)
  entered : Bool
  cleared : Bool
deriving DecidableEq, Repr

/-- `Gate.update(dt, W, H)`. -/
def Gate.update (g : Gate) (dt W H : ℚ) : Gate :=
  let prev := g.pos
  let pos := g.pos + g.v * dt
  let entered :=
    if ¬g.entered then
      match g.axis with
      | Axis.x => decide (pos + g.thick * 0.5 ≥ 0 ∧ pos - g.thick * 0.5 ≤ W)
      | Axis.y => decide (pos + g.thick * 0.5 ≥ 0 ∧ pos - g.thick * 0.5 ≤ H)
    else true
  { g with pos := pos, prev := prev, entered := entered }

/-- `Gate.crossed(playerAxis)`. -/
def Gate.crossed (g : Gate) (playerAxis : ℚ) : Bool :=
  if g.cleared ∨ ¬g.entered then false
  else if g.v > 0 then decide (g.prev < playerAxis ∧ g.pos ≥ playerAxis)
  else if g.v < 0 then decide (g.prev > playerAxis ∧ g.pos ≤ playerAxis)
  else false

/-- `Gate.off(W, H, m)`. -/
def Gate.off (g : Gate) (W H m : ℚ) : Bool :=
  match g.axis with
  | Axis.x => decide (g.pos < -m ∨ g.pos > W + m)
  | Axis.y => decide (g.pos < -m ∨ g.pos > H + m)

/-- game.js `class Orb` (`max` is the initial lifetime, `ph` the visual
pulse phase drawn at construction). -/
structure Orb where
  (x y vx vy r life max ph : ℚ)
deriving DecidableEq, Repr

/-- `Orb.update(dt, W, H)`: drift, age, bounce at the play-area edges. -/
def Orb.update (o : Orb) (dt W H : ℚ) : Orb :=
  let life := o.life - dt
  let ph := o.ph + dt * 2.2
  let x := o.x + o.vx * dt
  let y := o.y + o.vy * dt
  let pad := o.r + 4
  let xvx : ℚ × ℚ := if x < pad then (pad, |o.vx|) else (x, o.vx)
  let xvx : ℚ × ℚ := if xvx.1 > W - pad then (W - pad, -|xvx.2|) else xvx
  let yvy : ℚ × ℚ := if y < pad then (pad, |o.vy|) else (y, o.vy)
  let yvy : ℚ × ℚ := if yvy.1 > H - pad then (H - pad, -|yvy.2|) else yvy
  { o with life := life, ph := ph, x := xvx.1, vx := xvx.2, y := yvy.1, vy := yvy.2 }

/-- `Orb.dead()`. -/
def Orb.dead (o : Orb) : Bool := decide (o.life ≤ 0)

/-- game.js `class Part` (visual particle; `drag` is assigned by callers
right after construction, so it is a constructor argument here). -/
structure Part where
  (x y vx vy life max size : ℚ)
  color : Color
  add : Bool
  drag : ℚ
deriving DecidableEq, Repr

/-- `Part.update(dt)`: age, then (if alive) drag-damp velocity and move. -/
def Part.update (pr : Prims) (p : Part) (dt : ℚ) : Part :=
  let life := p.life - dt
  if life ≤ 0 then { p with life := life }
  else
    let d := if p.drag > 0 then pr.exp (-(p.drag * dt)) else 1
    let vx := if p.drag > 0 then p.vx * d else p.vx
    let vy := if p.drag > 0 then p.vy * d else p.vy
    { p with life := life, vx := vx, vy := vy, x := p.x + vx * dt, y := p.y + vy * dt }

/-- game.js `class FloatText` (floating score/combo text). -/
structure FloatText where
  txt : String
  (x y vx vy life max : ℚ)
  color : Color
  size : ℚ
deriving DecidableEq, Repr

/-- `FloatText.update(dt)`. -/
def FloatText.update (pr : Prims) (f : FloatText) (dt : ℚ) : FloatText :=
  let life := f.life - dt
  if life ≤ 0 then { f with life := life }
  else
    let x := f.x + f.vx * dt
    let y := f.y + f.vy * dt
    let d := pr.exp (-2.7 * dt)
    { f with life := life, x := x, y := y, vx := f.vx * d, vy := f.vy * d }

/-- The player record of `Game` (`this.player`). -/
structure Player where
  (x y vx vy : ℚ)
  (w h r : ℚ)
  (lastX lastY : ℚ)
  (invT dashT dashVX dashVY : ℚ)
deriving DecidableEq, Repr

/-- The active slow field (`this.slowField`), when present. -/
structure SlowField where
  (x y r fac t tm : ℚ)
deriving DecidableEq, Repr

/-- The per-skill cooldown timers (`this.cds`). -/
structure Cds where
  (dash phase teleport slowField : ℚ)
deriving DecidableEq, Repr

/-- `this.cds[name]` lookup. -/
def Cds.get (c : Cds) : SkillName → ℚ
  | SkillName.dash => c.dash
  | SkillName.phase => c.phase
  | SkillName.teleport => c.teleport
  | SkillName.slowField => c.slowField

/-- `this.cds[name] = v` update. -/
def Cds.set (c : Cds) : SkillName → ℚ → Cds
  | SkillName.dash, v => { c with dash := v }
  | SkillName.phase, v => { c with phase := v }
  | SkillName.teleport, v => { c with teleport := v }
  | SkillName.slowField, v => { c with slowField := v }

/-- The trail cosmetic id (`getTrailId()`); affects trail particle style. -/
inductive TrailId where
  | classic
  | rainbow
  | gothic
deriving DecidableEq, Repr

/-- Continuous movement intent (`input.getMove()`). -/
structure Move where
  dx : ℚ
  dy : ℚ
deriving DecidableEq, Repr

/-- Pointer state (`input.cursor`), in canvas-internal coordinates. -/
structure Cursor where
  x : ℚ
  y : ℚ
  has : Bool
deriving DecidableEq, Repr

/-- The simulation-relevant state of `class Game`.  `rng` is the draw
counter of the current swappable random source (see module docstring);
`canvasW`/`canvasH` are the canvas backing-store dimensions used by the
teleport cursor-to-world mapping. -/
structure GameState where
  state : GState
  (W H canvasW canvasH : ℚ)
  player : Player
  pipes : List Pipe
  gates : List Gate
  orbs : List Orb
  parts : List Part
  floats : List FloatText
  (score : ℚ)
  (timeAlive : ℚ)
  (pipeT specialT orbT : ℚ)
  (combo : ℚ)
  (comboBreakFlash comboSparkAcc : ℚ)
  (perfectT perfectMax : ℚ)
  slowField : Option SlowField
  cds : Cds
  (trailAcc trailHue : ℚ)
  (rng : ℕ)
deriving DecidableEq, Repr

/-! ## Random draws

util.js `rand(a, b) = a + (b - a) * _rand01()`: one draw from the current
swappable source `src`, advancing the draw counter. -/

/-- One `rand(a, b)` draw at counter `k` from source `src`. -/
def randR (src : ℕ → ℚ) (a b : ℚ) (k : ℕ) : ℚ × ℕ :=
  (a + (b - a) * src k, k + 1)

/-- `FloatText` construction (its constructor draws `vx` and `vy`). -/
def mkFloatText (src : ℕ → ℚ) (txt : String) (x y : ℚ) (color : Color) (k : ℕ) :
    FloatText × ℕ :=
  let r1 := randR src (-18) 18 k
  let r2 := randR src (-90) (-55) r1.2
  (⟨txt, x, y, r1.1, r2.1, 0.9, 0.9, color, 18⟩, r2.2)

/-! ## game.js: geometry / difficulty helpers -/

/-- `Game._margin()`. -/
def margin (W H : ℚ) : ℚ := clamp (min W H * 0.25) 110 240

/-- `Game._difficulty01()`. -/
def difficulty01 (pr : Prims) (cfg : Cfg) (s : GameState) : ℚ :=
  let t := s.timeAlive
  let sc0 := s.score
  let tc := max (1/1000) (numOr cfg.pipes.difficulty.timeToMax 38)
  let sc := max (1/1000) (numOr cfg.pipes.difficulty.scoreToMax 120)
  let mt := clamp (numOr cfg.pipes.difficulty.mixTime 0.55) 0 1
  let ms := clamp (numOr cfg.pipes.difficulty.mixScore 0.45) 0 1
  let dT := 1 - pr.exp (-(t / tc))
  let dS := 1 - pr.exp (-(sc0 / sc))
  clamp (mt * dT + ms * dS) 0 1

/-- `Game._spawnInterval()`. -/
def spawnInterval (pr : Prims) (cfg : Cfg) (s : GameState) : ℚ :=
  let d := difficulty01 pr cfg s
  let si := cfg.pipes.spawnInterval
  clamp (lerp si.start si.endv d) si.min si.max

/-- `Game._pipeSpeed()`. -/
def pipeSpeed (pr : Prims) (cfg : Cfg) (s : GameState) : ℚ :=
  let d := difficulty01 pr cfg s
  lerp cfg.pipes.speed.start cfg.pipes.speed.endv d

/-- `Game._thickness()`. -/
def thickness (cfg : Cfg) (s : GameState) : ℚ :=
  let base := min s.W s.H
  let th := cfg.pipes.thickness
  clamp (base * th.scale) th.min th.max

/-- `Game._gapSize()`. -/
def gapSize (pr : Prims) (cfg : Cfg) (s : GameState) : ℚ :=
  let d := difficulty01 pr cfg s
  let base := min s.W s.H
  let g := cfg.pipes.gap
  clamp (lerp (base * g.startScale) (base * g.endScale) d) g.min g.max

/-- The geometry computed by `Game._skillUI()`. -/
structure SkillUI where
  (x0 y0 size gap totalW barX barY barW barH : ℚ)

/-- `Game._skillUI()`. -/
def skillUI (W H : ℚ) : SkillUI :=
  let base := min W H
  let size := clamp (base * 0.070) 46 64
  let gap := (jsRound (size * 0.14) : ℚ)
  let pad : ℚ := 16
  let x0 := pad
  let y0 := H - pad - size
  let totalW := 4 * size + 3 * gap
  let barH : ℚ := 10
  let barX := x0
  let barY := y0 - 16 - barH
  ⟨x0, y0, size, gap, totalW, barX, barY, totalW, barH⟩

/-- `Game._orbPoints(comboNow)`. -/
def orbPoints (cfg : Cfg) (comboNow : ℚ) : ℤ :=
  let base := max 0 (numOr cfg.scoring.orbBase 0)
  let bonus := max 0 (numOr cfg.scoring.orbComboBonus 0)
  jsRound (base + bonus * max 0 (comboNow - 1))

/-- `Game._breakCombo(x, y)`: returns the new floats list, the reset combo,
the new combo-break flash, and the advanced draw counter. -/
def breakCombo (src : ℕ → ℚ) (combo : ℚ) (floats : List FloatText) (x y : ℚ) (k : ℕ) :
    List FloatText × ℚ × ℚ × ℕ :=
  if combo > 0 then
    let f := mkFloatText src "COMBO BROKE" x y (Color.css "rgba(255,90,90,.95)") k
    (floats ++ [f.1], 0, 0.35, f.2)
  else (floats, 0, 0.35, k)

/-- `Game._tickCooldowns(dt)`. -/
def tickCooldowns (dt : ℚ) (c : Cds) : Cds :=
  { dash := max 0 (c.dash - dt)
    phase := max 0 (c.phase - dt)
    teleport := max 0 (c.teleport - dt)
    slowField := max 0 (c.slowField - dt) }

/-- `Game._trailStyle(id)`. -/
structure TrailStyle where
  rate : ℚ
  life : ℚ × ℚ
  size : ℚ × ℚ
  speed : ℚ × ℚ
  drag : ℚ
  add : Bool

/-- `Game._trailStyle(id)`. -/
def trailStyle : TrailId → TrailStyle
  | TrailId.rainbow => ⟨95, (0.18, 0.34), (7, 10), (35, 170), 10.5, true⟩
  | TrailId.gothic => ⟨78, (0.20, 0.40), (7, 10), (30, 150), 9.5, true⟩
  | TrailId.classic => ⟨55, (0.18, 0.32), (0.8, 2.0), (25, 120), 11.5, true⟩

/-! ## game.js: `Game._useSkill` particle bursts -/

/-- The 18-particle burst spawned on dash activation:
`a = rand(0, 2π); sp = rand(40, 260); Part(x, y, cos(a)·sp − dashVX·220,
sin(a)·sp − dashVY·220, rand(0.18, 0.34), rand(1.0, 2.2), white, add); drag = 9.5`. -/
def dashParticles (pr : Prims) (src : ℕ → ℚ) (x y dvx dvy : ℚ) :
    ℕ → ℕ → List Part × ℕ
  | 0, k => ([], k)
  | m + 1, k =>
    let ra := randR src 0 (pr.pi * 2) k
    let rsp := randR src 40 260 ra.2
    let vx := pr.cos ra.1 * rsp.1 - dvx * 220
    let vy := pr.sin ra.1 * rsp.1 - dvy * 220
    let rlife := randR src 0.18 0.34 rsp.2
    let rsize := randR src 1.0 2.2 rlife.2
    let prt : Part := ⟨x, y, vx, vy, rlife.1, rlife.1, rsize.1,
      Color.css "rgba(255,255,255,.80)", true, 9.5⟩
    let rest := dashParticles pr src x y dvx dvy m rsize.2
    (prt :: rest.1, rest.2)

/-- The teleport double burst (`burstParticles` iterations, two particles
per iteration: one at the origin, one at the destination). -/
def teleportBurst (pr : Prims) (src : ℕ → ℚ) (ox oy nx ny : ℚ) :
    ℕ → ℕ → List Part × ℕ
  | 0, k => ([], k)
  | m + 1, k =>
    let ra0 := randR src 0 (pr.pi * 2) k
    let rsp0 := randR src 80 420 ra0.2
    let rlife0 := randR src 0.22 0.50 rsp0.2
    let rsize0 := randR src 1.0 2.2 rlife0.2
    let p0 : Part := ⟨ox, oy, pr.cos ra0.1 * rsp0.1, pr.sin ra0.1 * rsp0.1,
      rlife0.1, rlife0.1, rsize0.1, Color.css "rgba(210,170,255,.92)", true, 7.5⟩
    let ra1 := randR src 0 (pr.pi * 2) rsize0.2
    let rsp1 := randR src 80 420 ra1.2
    let rlife1 := randR src 0.22 0.55 rsp1.2
    let rsize1 := randR src 1.0 2.4 rlife1.2
    let p1 : Part := ⟨nx, ny, pr.cos ra1.1 * rsp1.1, pr.sin ra1.1 * rsp1.1,
      rlife1.1, rlife1.1, rsize1.1, Color.css "rgba(255,255,255,.82)", true, 7.0⟩
    let rest := teleportBurst pr src ox oy nx ny m rsize1.2
    (p0 :: p1 :: rest.1, rest.2)

/-- The 26-particle teleport afterglow (lifetime `ed`, not drawn). -/
def teleportAfter (pr : Prims) (src : ℕ → ℚ) (nx ny ed : ℚ) :
    ℕ → ℕ → List Part × ℕ
  | 0, k => ([], k)
  | m + 1, k =>
    let ra := randR src 0 (pr.pi * 2) k
    let rsp := randR src 40 160 ra.2
    let rsize := randR src 0.9 1.7 rsp.2
    let prt : Part := ⟨nx, ny, pr.cos ra.1 * rsp.1, pr.sin ra.1 * rsp.1,
      ed, ed, rsize.1, Color.css "rgba(255,255,255,.45)", true, 10⟩
    let rest := teleportAfter pr src nx ny ed m rsize.2
    (prt :: rest.1, rest.2)

/-! ## game.js: `Game._useSkill` / `Game.handleAction` -/

/-- `Game._useSkill(name)`.  All four skill configs are present in `Cfg`,
so the JS guard `if (!this.cfg.skills[name]) return` always passes.
`move` is `this.input.getMove()`, `cursor` is `this.input.cursor`. -/
def useSkill (pr : Prims) (cfg : Cfg) (src : ℕ → ℚ) (move : Move) (cursor : Cursor)
    (name : SkillName) (s : GameState) : GameState :=
  if s.cds.get name > 0 then s
  else
    match name with
    | SkillName.dash =>
      let d := cfg.skills.dash
      let dur := clamp (numOr d.duration 0) 0 1.2
      let n := norm2 pr move.dx move.dy
      let dx := if n.len > 0 then n.x else s.player.lastX
      let dy := if n.len > 0 then n.y else s.player.lastY
      let nn := norm2 pr dx dy
      let dashVX := if nn.len > 0 then nn.x else 0
      let dashVY := if nn.len > 0 then nn.y else -1
      let burst := dashParticles pr src s.player.x s.player.y dashVX dashVY 18 s.rng
      { s with
        player := { s.player with dashVX := dashVX, dashVY := dashVY, dashT := dur }
        cds := s.cds.set SkillName.dash (max 0 (numOr d.cooldown 0))
        parts := s.parts ++ burst.1
        rng := burst.2 }
    | SkillName.phase =>
      let ph := cfg.skills.phase
      let dur := clamp (numOr ph.duration 0) 0 2.0
      let f := mkFloatText src "PHASE" s.player.x (s.player.y - s.player.r * 1.6)
        (Color.css "rgba(160,220,255,.95)") s.rng
      { s with
        player := { s.player with invT := max s.player.invT dur }
        cds := s.cds.set SkillName.phase (max 0 (numOr ph.cooldown 0))
        floats := s.floats ++ [f.1]
        rng := f.2 }
    | SkillName.teleport =>
      let t := cfg.skills.teleport
      let ed := clamp (numOr t.effectDuration 0.35) 0.1 1.2
      let burstN := (⌊clamp (numOr t.burstParticles 0) 0 240⌋).toNat
      if ¬cursor.has then s
      else
        let p := s.player
        let pad := p.r + 2
        let ox := p.x
        let oy := p.y
        -- cursor -> world space: `cw = this.canvas?.width || this.W` etc.
        let cw := numOr s.canvasW s.W
        let ch := numOr s.canvasH s.H
        let sx := if cw > 0 then s.W / cw else 1
        let sy := if ch > 0 then s.H / ch else 1
        let tx := cursor.x * sx
        let ty := cursor.y * sy
        let nx := clamp tx pad (s.W - pad)
        let ny := clamp ty pad (s.H - pad)
        let b1 := teleportBurst pr src ox oy nx ny burstN s.rng
        let f := mkFloatText src "TELEPORT" nx (ny - p.r * 1.7)
          (Color.css "rgba(230,200,255,.95)") b1.2
        let b2 := teleportAfter pr src nx ny ed 26 f.2
        { s with
          player := { p with x := nx, y := ny, vx := p.vx * 0.25, vy := p.vy * 0.25 }
          cds := s.cds.set SkillName.teleport (max 0 (numOr t.cooldown 0))
          parts := s.parts ++ b1.1 ++ b2.1
          floats := s.floats ++ [f.1]
          rng := b2.2 }
    | SkillName.slowField =>
      let sf := cfg.skills.slowField
      let dur := clamp (numOr sf.duration 0) 0 8.0
      let rad := clamp (numOr sf.radius 0) 40 900
      let fac := clamp (numOr sf.slowFactor 0.6) 0.10 1.0
      let f := mkFloatText src "SLOW FIELD" s.player.x (s.player.y - s.player.r * 1.8)
        (Color.css "rgba(120,210,255,.95)") s.rng
      { s with
        slowField := some ⟨s.player.x, s.player.y, rad, fac, dur, dur⟩
        cds := s.cds.set SkillName.slowField (max 0 (numOr sf.cooldown 0))
        floats := s.floats ++ [f.1]
        rng := f.2 }

/-- `Game.handleAction(actionId)`: ignores actions outside the `PLAY` state. -/
def handleAction (pr : Prims) (cfg : Cfg) (src : ℕ → ℚ) (move : Move) (cursor : Cursor)
    (name : SkillName) (s : GameState) : GameState :=
  if s.state ≠ GState.play then s else useSkill pr cfg src move cursor name s

/-! ## game.js: `Game.update(dt)`, split into its sequential passes -/

/-- The timer advancement at the top of `update` (game.js 723–732):
`timeAlive`, cooldowns, combo-break flash, perfect flash, slow-field decay. -/
def timersPass (dt : ℚ) (s : GameState) : GameState :=
  { s with
    timeAlive := s.timeAlive + dt
    cds := tickCooldowns dt s.cds
    comboBreakFlash :=
      if s.comboBreakFlash > 0 then max 0 (s.comboBreakFlash - dt) else s.comboBreakFlash
    perfectT := if s.perfectT > 0 then max 0 (s.perfectT - dt) else s.perfectT
    slowField :=
      match s.slowField with
      | some f => if max 0 (f.t - dt) ≤ 0 then none else some { f with t := max 0 (f.t - dt) }
      | none => none }

/-- The player mutation of `Game._updatePlayer(dt)` (the method touches
only `this.player`, reading `this.W`/`this.H` and the movement intent). -/
def updatePlayerFn (pr : Prims) (cfg : Cfg) (move : Move) (dt W H : ℚ) (p0 : Player) :
    Player :=
  let p := p0
  let p := if p.invT > 0 then { p with invT := max 0 (p.invT - dt) } else p
  let p := if p.dashT > 0 then { p with dashT := max 0 (p.dashT - dt) } else p
  let n := norm2 pr move.dx move.dy
  let p := if n.len > 0 then { p with lastX := n.x, lastY := n.y } else p
  let p :=
    if p.dashT > 0 then
      let p := if n.len > 0 then { p with dashVX := n.x, dashVY := n.y } else p
      let dashSpeed := max 0 (numOr cfg.skills.dash.speed 0)
      { p with vx := p.dashVX * dashSpeed, vy := p.dashVY * dashSpeed }
    else
      let maxS := numOr cfg.player.maxSpeed 0
      let accel := numOr cfg.player.accel 0
      let fr := numOr cfg.player.friction 0
      let tvx := n.x * maxS
      let tvy := n.y * maxS
      let p := { p with vx := approach p.vx tvx (accel * dt), vy := approach p.vy tvy (accel * dt) }
      if n.len = 0 then
        let damp := pr.exp (-(fr * dt))
        { p with vx := p.vx * damp, vy := p.vy * damp }
      else p
  let p := { p with x := p.x + p.vx * dt, y := p.y + p.vy * dt }
  let pad := p.r + 2
  { p with x := clamp p.x pad (W - pad), y := clamp p.y pad (H - pad) }

/-- `Game._updatePlayer(dt)`. -/
def updatePlayerPass (pr : Prims) (cfg : Cfg) (move : Move) (dt : ℚ) (s : GameState) :
    GameState :=
  { s with player := updatePlayerFn pr cfg move dt s.W s.H s.player }

/-- The trail particles of `Game._emitTrail` (one per loop iteration `i`). -/
def trailParticles (pr : Prims) (src : ℕ → ℚ) (trail : TrailId) (st : TrailStyle)
    (hue r backX backY bx byy : ℚ) : ℕ → ℕ → ℕ → List Part × ℕ
  | 0, _, k => ([], k)
  | m + 1, i, k =>
    let rj := randR src 0 (pr.pi * 2) k
    let rjx := randR src 0 (r * 0.35) rj.2
    let jx := pr.cos rj.1 * rjx.1
    let rjy := randR src 0 (r * 0.35) rjx.2
    let jy := pr.sin rj.1 * rjy.1
    let rsp := randR src st.speed.1 st.speed.2 rjy.2
    let ra := randR src 0 (pr.pi * 2) rsp.2
    let vx := backX * rsp.1 + pr.cos ra.1 * rsp.1 * 0.55
    let vy := backY * rsp.1 + pr.sin ra.1 * rsp.1 * 0.55
    let rlife := randR src st.life.1 st.life.2 ra.2
    let rsize := randR src st.size.1 st.size.2 rlife.2
    let ck : Color × ℕ :=
      match trail with
      | TrailId.rainbow => (hslaColor (jsMod (hue + (i : ℚ) * 11) 360) 100 70 0.85, rsize.2)
      | TrailId.gothic =>
        let rink := randR src 0 1 rsize.2
        (if rink.1 < 0.16 then Color.css "rgba(0,0,0,.55)" else Color.css "rgba(170,90,255,.72)",
          rink.2)
      | TrailId.classic => (Color.css "rgba(140,220,255,.62)", rsize.2)
    let prt : Part := ⟨bx + jx, byy + jy, vx, vy, rlife.1, rlife.1, rsize.1, ck.1, st.add, st.drag⟩
    let rest := trailParticles pr src trail st hue r backX backY bx byy m (i + 1) ck.2
    (prt :: rest.1, rest.2)

/-- `Game._emitTrail(dt)`. -/
def emitTrailPass (pr : Prims) (src : ℕ → ℚ) (trail : TrailId) (dt : ℚ) (s : GameState) :
    GameState :=
  let st := trailStyle trail
  let trailHue := jsMod (s.trailHue + dt * 220) 360
  let trailAcc := s.trailAcc + dt * st.rate
  let n := jsTrunc trailAcc
  let trailAcc := trailAcc - (n : ℚ)
  let p := s.player
  let v := norm2 pr p.vx p.vy
  let backX := if v.len > 12 then -v.x else -p.lastX
  let backY := if v.len > 12 then -v.y else -p.lastY
  let bx := p.x + backX * p.r * 0.95
  let byy := p.y + backY * p.r * 0.95
  let burst := trailParticles pr src trail st trailHue p.r backX backY bx byy n.toNat 0 s.rng
  { s with
    trailHue := trailHue
    trailAcc := trailAcc
    parts := s.parts ++ burst.1
    rng := burst.2 }

/-- The combo-bar sparkle particles (`update`, game.js 737–754). -/
def sparkParticles (pr : Prims) (src : ℕ → ℚ) (ui : SkillUI) : ℕ → ℕ → List Part × ℕ
  | 0, k => ([], k)
  | m + 1, k =>
    let rpx := randR src ui.barX (ui.barX + ui.barW) k
    let rpy := randR src (ui.barY - 8) (ui.barY + ui.barH + 8) rpx.2
    let ra := randR src 0 (pr.pi * 2) rpy.2
    let rsp := randR src 20 90 ra.2
    let rlife := randR src 0.18 0.35 rsp.2
    let rsize := randR src 0.9 1.7 rlife.2
    let prt : Part := ⟨rpx.1, rpy.1, pr.cos ra.1 * rsp.1, pr.sin ra.1 * rsp.1,
      rlife.1, rlife.1, rsize.1, Color.css "rgba(255,255,255,.7)", true, 10.5⟩
    let rest := sparkParticles pr src ui m rsize.2
    (prt :: rest.1, rest.2)

/-- The combo sparkle block of `update`. -/
def sparklesPass (pr : Prims) (src : ℕ → ℚ) (cfg : Cfg) (dt : ℚ) (s : GameState) : GameState :=
  let sparkleAt := numOr cfg.ui.comboBar.sparkleAt 9999
  if s.combo ≥ sparkleAt then
    let rate := max 0 (numOr cfg.ui.comboBar.sparkleRate 0)
    let acc := s.comboSparkAcc + dt * rate
    let n := jsTrunc acc
    let ui := skillUI s.W s.H
    let burst := sparkParticles pr src ui n.toNat s.rng
    { s with comboSparkAcc := acc - (n : ℚ), parts := s.parts ++ burst.1, rng := burst.2 }
  else { s with comboSparkAcc := 0 }

/-! ## game.js: pipe/orb spawning -/

/-- The `opts` object taken by `Game._spawnSinglePipe` / `Game._spawnWall`. -/
structure SpawnOpts where
  speed : Option ℚ := none
  side : Option ℤ := none
  aimAtPlayer : Bool := false
  spreadRad : Option ℚ := none
  gap : Option ℚ := none

/-- Intermediate per-side initialisation of `_spawnSinglePipe`
(the four sequential `if (side === k)` blocks). -/
structure SpawnInit where
  (x y vx vy pw ph : ℚ)
  k : ℕ

/-- `Game._spawnSinglePipe(opts)`: returns the pushed pipe and the advanced
draw counter. -/
def spawnSinglePipe (pr : Prims) (src : ℕ → ℚ) (cfg : Cfg) (s : GameState)
    (opts : SpawnOpts) (k : ℕ) : Pipe × ℕ :=
  let th := thickness cfg s
  let rlen := randR src 3.0 6.5 k
  let len := clamp (th * rlen.1) (th * 2.6) (max s.W s.H * 0.55)
  let spd := opts.speed.getD (pipeSpeed pr cfg s)
  let sideK : ℤ × ℕ :=
    match opts.side with
    | some v => (v, rlen.2)
    | none => let r := randR src 0 4 rlen.2; (jsTrunc r.1, r.2)
  let side := sideK.1
  let i : SpawnInit :=
    if side = 0 then
      let pw := th
      let ph := len
      let ry := randR src (-(ph * 0.15)) (s.H - ph * 0.85) sideK.2
      let rvy := randR src (-(spd * 0.28)) (spd * 0.28) ry.2
      ⟨-pw - 12, ry.1, spd, rvy.1, pw, ph, rvy.2⟩
    else if side = 1 then
      let pw := th
      let ph := len
      let ry := randR src (-(ph * 0.15)) (s.H - ph * 0.85) sideK.2
      let rvy := randR src (-(spd * 0.28)) (spd * 0.28) ry.2
      ⟨s.W + 12, ry.1, -spd, rvy.1, pw, ph, rvy.2⟩
    else if side = 2 then
      let pw := len
      let ph := th
      let rx := randR src (-(pw * 0.15)) (s.W - pw * 0.85) sideK.2
      let rvx := randR src (-(spd * 0.28)) (spd * 0.28) rx.2
      ⟨rx.1, -ph - 12, rvx.1, spd, pw, ph, rvx.2⟩
    else if side = 3 then
      let pw := len
      let ph := th
      let rx := randR src (-(pw * 0.15)) (s.W - pw * 0.85) sideK.2
      let rvx := randR src (-(spd * 0.28)) (spd * 0.28) rx.2
      ⟨rx.1, s.H + 12, rvx.1, -spd, pw, ph, rvx.2⟩
    else ⟨0, 0, 0, 0, 0, 0, sideK.2⟩
  if opts.aimAtPlayer then
    let px := s.player.x
    let py := s.player.y
    let cxK : ℚ × ℕ :=
      if side = 0 then (-(th * 0.5), i.k)
      else if side = 1 then (s.W + th * 0.5, i.k)
      else randR src 0 s.W i.k
    let cyK : ℚ × ℕ :=
      if side = 2 then (-(th * 0.5), cxK.2)
      else if side = 3 then (s.H + th * 0.5, cxK.2)
      else randR src 0 s.H cxK.2
    let d0 := norm2 pr (px - cxK.1) (py - cyK.1)
    let spreadK : ℚ × ℕ :=
      match opts.spreadRad with
      | some v => (v, cyK.2)
      | none => randR src (-0.22) 0.22 cyK.2
    let cs := pr.cos spreadK.1
    let sn := pr.sin spreadK.1
    let ux := d0.x * cs - d0.y * sn
    let uy := d0.x * sn + d0.y * cs
    let vx := ux * spd
    let vy := uy * spd
    let xy : ℚ × ℚ :=
      if side = 0 then (-i.pw - 14, clamp (cyK.1 - i.ph * 0.5) (-i.ph) (s.H + i.ph))
      else if side = 1 then (s.W + 14, clamp (cyK.1 - i.ph * 0.5) (-i.ph) (s.H + i.ph))
      else if side = 2 then (clamp (cxK.1 - i.pw * 0.5) (-i.pw) (s.W + i.pw), -i.ph - 14)
      else if side = 3 then (clamp (cxK.1 - i.pw * 0.5) (-i.pw) (s.W + i.pw), s.H + 14)
      else (i.x, i.y)
    (mkPipe xy.1 xy.2 i.pw i.ph vx vy, spreadK.2)
  else
    (mkPipe i.x i.y i.pw i.ph i.vx i.vy, i.k)

/-- `Game._spawnWall(opts)`: returns the pushed pipes (0–2), the gate, and
the advanced draw counter. -/
def spawnWall (pr : Prims) (src : ℕ → ℚ) (cfg : Cfg) (s : GameState)
    (opts : SpawnOpts) (k : ℕ) : List Pipe × Gate × ℕ :=
  let th := thickness cfg s
  let spd := opts.speed.getD (pipeSpeed pr cfg s * 0.95)
  let gap := opts.gap.getD (gapSize pr cfg s)
  let sideK : ℤ × ℕ :=
    match opts.side with
    | some v => (v, k)
    | none => let r := randR src 0 4 k; (jsTrunc r.1, r.2)
  let side := sideK.1
  let pad := max 18 (s.player.r * 1.1)
  if side = 0 ∨ side = 1 then
    let rgc := randR src (pad + gap * 0.5) (s.H - (pad + gap * 0.5)) sideK.2
    let gc := rgc.1
    let top := gc - gap * 0.5
    let bot := gc + gap * 0.5
    let topLen := clamp top 10 s.H
    let botLen := clamp (s.H - bot) 10 s.H
    let sx := if side = 0 then -th - 16 else s.W + 16
    let vx := if side = 0 then spd else -spd
    let ps := (if topLen > 10 then [mkPipe sx 0 th topLen vx 0] else []) ++
      (if botLen > 10 then [mkPipe sx bot th botLen vx 0] else [])
    (ps, ⟨Axis.x, sx + th * 0.5, sx + th * 0.5, vx, gc, gap * 0.5, th, false, false⟩, rgc.2)
  else
    let rgc := randR src (pad + gap * 0.5) (s.W - (pad + gap * 0.5)) sideK.2
    let gc := rgc.1
    let left := gc - gap * 0.5
    let right := gc + gap * 0.5
    let leftLen := clamp left 10 s.W
    let rightLen := clamp (s.W - right) 10 s.W
    let sy := if side = 2 then -th - 16 else s.H + 16
    let vy := if side = 2 then spd else -spd
    let ps := (if leftLen > 10 then [mkPipe 0 sy leftLen th 0 vy] else []) ++
      (if rightLen > 10 then [mkPipe right sy rightLen th 0 vy] else [])
    (ps, ⟨Axis.y, sy + th * 0.5, sy + th * 0.5, vy, gc, gap * 0.5, th, false, false⟩, rgc.2)

/-- The aimed-pipe loop of `Game._spawnBurst` (iterations `i < count`). -/
def burstPipes (pr : Prims) (src : ℕ → ℚ) (cfg : Cfg) (s : GameState)
    (side : ℤ) (spd arc : ℚ) (count : ℕ) : ℕ → ℕ → ℕ → List Pipe × ℕ
  | _, 0, k => ([], k)
  | i, m + 1, k =>
    let t : ℚ := if count = 1 then 0.5 else (i : ℚ) / ((count : ℚ) - 1)
    let spread := (t - 0.5) * arc
    let p := spawnSinglePipe pr src cfg s
      { side := some side, speed := some spd, aimAtPlayer := true, spreadRad := some spread } k
    let rest := burstPipes pr src cfg s side spd arc count (i + 1) m p.2
    (p.1 :: rest.1, rest.2)

/-- `Game._spawnBurst()`. -/
def spawnBurst (pr : Prims) (src : ℕ → ℚ) (cfg : Cfg) (s : GameState) (k : ℕ) :
    List Pipe × ℕ :=
  let d := difficulty01 pr cfg s
  let rside := randR src 0 4 k
  let side := jsTrunc rside.1
  let count := (⌊lerp 5 8 d⌋).toNat
  let spd := pipeSpeed pr cfg s * lerp 0.92 1.12 d
  let arc := lerp 0.65 0.95 d
  burstPipes pr src cfg s side spd arc count 0 count rside.2

/-- `Game._spawnCrossfire()`. -/
def spawnCrossfire (pr : Prims) (src : ℕ → ℚ) (cfg : Cfg) (s : GameState) (k : ℕ) :
    List Pipe × ℕ :=
  let d := difficulty01 pr cfg s
  let spd := pipeSpeed pr cfg s * lerp 0.95 1.10 d
  let rs0 := randR src (-0.1) 0.1 k
  let p0 := spawnSinglePipe pr src cfg s
    { side := some 0, speed := some spd, aimAtPlayer := true, spreadRad := some rs0.1 } rs0.2
  let rs1 := randR src (-0.1) 0.1 p0.2
  let p1 := spawnSinglePipe pr src cfg s
    { side := some 1, speed := some spd, aimAtPlayer := true, spreadRad := some rs1.1 } rs1.2
  let rs2 := randR src (-0.1) 0.1 p1.2
  let p2 := spawnSinglePipe pr src cfg s
    { side := some 2, speed := some spd, aimAtPlayer := true, spreadRad := some rs2.1 } rs2.2
  let rs3 := randR src (-0.1) 0.1 p2.2
  let p3 := spawnSinglePipe pr src cfg s
    { side := some 3, speed := some spd, aimAtPlayer := true, spreadRad := some rs3.1 } rs3.2
  ([p0.1, p1.1, p2.1, p3.1], p3.2)

/-- The `while (this.pipeT <= 0)` spawn loop of `update` (game.js 757–773).
In JS the loop runs until `pipeT` becomes positive (each iteration adds
`_spawnInterval()`, which neither spawning nor the draws change within the
loop); the structural `fuel` bound makes the recursion total and agrees
with the JS loop whenever `fuel` is at least the number of iterations the
loop performs (in particular whenever the loop does not run). -/
def spawnPipesLoop (pr : Prims) (src : ℕ → ℚ) (cfg : Cfg) (s : GameState) :
    ℕ → ℚ → List Pipe → List Gate → ℕ → ℚ × List Pipe × List Gate × ℕ
  | 0, pipeT, accP, accG, k => (pipeT, accP, accG, k)
  | fuel + 1, pipeT, accP, accG, k =>
    if pipeT ≤ 0 then
      let pipeT := pipeT + spawnInterval pr cfg s
      let d := difficulty01 pr cfg s
      let rr := randR src 0 1 k
      let wallChance := lerp cfg.pipes.patternWeights.wall.1 cfg.pipes.patternWeights.wall.2 d
      let aimedChance := lerp cfg.pipes.patternWeights.aimed.1 cfg.pipes.patternWeights.aimed.2 d
      if rr.1 < wallChance then
        let rside := randR src 0 4 rr.2
        let w := spawnWall pr src cfg s
          { side := some (jsTrunc rside.1), gap := some (gapSize pr cfg s),
            speed := some (pipeSpeed pr cfg s * 0.95) } rside.2
        spawnPipesLoop pr src cfg s fuel pipeT (accP ++ w.1) (accG ++ [w.2.1]) w.2.2
      else if rr.1 < wallChance + aimedChance then
        let rside := randR src 0 4 rr.2
        let p := spawnSinglePipe pr src cfg s
          { side := some (jsTrunc rside.1), aimAtPlayer := true,
            speed := some (pipeSpeed pr cfg s) } rside.2
        spawnPipesLoop pr src cfg s fuel pipeT (accP ++ [p.1]) accG p.2
      else
        let rside := randR src 0 4 rr.2
        let p := spawnSinglePipe pr src cfg s
          { side := some (jsTrunc rside.1), aimAtPlayer := false,
            speed := some (pipeSpeed pr cfg s) } rside.2
        spawnPipesLoop pr src cfg s fuel pipeT (accP ++ [p.1]) accG p.2
    else (pipeT, accP, accG, k)

/-- The pipe-spawning block of `update` (`this.pipeT -= dt` plus the loop). -/
def spawnPipesPass (pr : Prims) (src : ℕ → ℚ) (cfg : Cfg) (fuel : ℕ) (dt : ℚ)
    (s : GameState) : GameState :=
  let r := spawnPipesLoop pr src cfg s fuel (s.pipeT - dt) [] [] s.rng
  { s with
    pipeT := r.1
    pipes := s.pipes ++ r.2.1
    gates := s.gates ++ r.2.2.1
    rng := r.2.2.2 }

/-- The special-pattern block of `update` (game.js 776–786). -/
def specialPass (pr : Prims) (src : ℕ → ℚ) (cfg : Cfg) (dt : ℚ) (s : GameState) : GameState :=
  let specialT := s.specialT - dt
  if specialT ≤ 0 then
    let rr := randR src 0 1 s.rng
    let spawned : List Pipe × List Gate × ℕ :=
      if rr.1 < 0.48 then
        let b := spawnBurst pr src cfg s rr.2
        (b.1, [], b.2)
      else if rr.1 < 0.78 then
        let c := spawnCrossfire pr src cfg s rr.2
        (c.1, [], c.2)
      else
        let rside := randR src 0 4 rr.2
        let w := spawnWall pr src cfg s
          { side := some (jsTrunc rside.1), gap := some (gapSize pr cfg s),
            speed := some (pipeSpeed pr cfg s * 1.05) } rside.2
        (w.1, [w.2.1], w.2.2)
    let d := difficulty01 pr cfg s
    let sp := cfg.pipes.special
    let rj := randR src sp.jitterMin sp.jitterMax spawned.2.2
    { s with
      specialT := lerp sp.startCadence sp.endCadence d + rj.1
      pipes := s.pipes ++ spawned.1
      gates := s.gates ++ spawned.2.1
      rng := rj.2 }
  else { s with specialT := specialT }

/-- The placement retry loop of `Game._spawnOrb` (up to 18 tries, keeping
the centre fallback if none is far enough from the player). -/
def orbPlaceLoop (pr : Prims) (src : ℕ → ℚ) (s : GameState) (r safe : ℚ) :
    ℕ → ℚ → ℚ → ℕ → ℚ × ℚ × ℕ
  | 0, x, y, k => (x, y, k)
  | m + 1, x, y, k =>
    let rpx := randR src (r + 10) (s.W - r - 10) k
    let rpy := randR src (r + 10) (s.H - r - 10) rpx.2
    if pr.hypot (rpx.1 - s.player.x) (rpy.1 - s.player.y) ≥ s.player.r + r + safe then
      (rpx.1, rpy.1, rpy.2)
    else orbPlaceLoop pr src s r safe m x y rpy.2

/-- `Game._spawnOrb()`: returns the pushed orbs (0 or 1) and the advanced
draw counter. -/
def spawnOrb (pr : Prims) (src : ℕ → ℚ) (cfg : Cfg) (s : GameState) (k : ℕ) :
    List Orb × ℕ :=
  let o := cfg.catalysts.orbs
  if ¬o.enabled then ([], k)
  else if (s.orbs.length : ℚ) ≥ o.maxOnScreen then ([], k)
  else
    let r := clamp (numOr o.radius 12) 6 40
    let life := clamp (numOr o.lifetime 10) 1 60
    let safe := clamp (numOr o.safeDistance 120) 0 800
    let xy := orbPlaceLoop pr src s r safe 18 (s.W * 0.5) (s.H * 0.5) k
    let rsp := randR src o.driftSpeedMin o.driftSpeedMax xy.2.2
    let ra := randR src 0 (pr.pi * 2) rsp.2
    let rph := randR src 0 (pr.pi * 2) ra.2
    ([⟨xy.1, xy.2.1, pr.cos ra.1 * rsp.1, pr.sin ra.1 * rsp.1, r, life, life, rph.1⟩], rph.2)

/-- The orb-spawning block of `update` (game.js 789–797). -/
def orbSpawnPass (pr : Prims) (src : ℕ → ℚ) (cfg : Cfg) (dt : ℚ) (s : GameState) : GameState :=
  let o := cfg.catalysts.orbs
  if o.enabled then
    let orbT := s.orbT - dt
    if orbT ≤ 0 then
      let sp := spawnOrb pr src cfg s s.rng
      let a := min o.intervalMin o.intervalMax
      let b := max o.intervalMin o.intervalMax
      let rt := randR src a b sp.2
      { s with orbs := s.orbs ++ sp.1, orbT := rt.1, rng := rt.2 }
    else { s with orbT := orbT }
  else s

/-! ## game.js: gates + PERFECT scoring -/

/-- The 28-particle PERFECT burst (game.js 820–825). -/
def perfectParticles (pr : Prims) (src : ℕ → ℚ) (px py : ℚ) : ℕ → ℕ → List Part × ℕ
  | 0, k => ([], k)
  | m + 1, k =>
    let ra := randR src 0 (pr.pi * 2) k
    let rsp := randR src 60 320 ra.2
    let rlife := randR src 0.20 0.45 rsp.2
    let rsize := randR src 1.0 2.2 rlife.2
    let prt : Part := ⟨px, py, pr.cos ra.1 * rsp.1, pr.sin ra.1 * rsp.1,
      rlife.1, rlife.1, rsize.1, Color.css "rgba(255,255,255,.85)", true, 8.5⟩
    let rest := perfectParticles pr src px py m rsize.2
    (prt :: rest.1, rest.2)

/-- Accumulator of the per-gate PERFECT fold. -/
structure PerfAcc where
  gates : List Gate
  (score perfectT perfectMax : ℚ)
  floats : List FloatText
  parts : List Part
  k : ℕ

/-- One iteration of the PERFECT gate loop (game.js 805–828). -/
def perfectGate (pr : Prims) (src : ℕ → ℚ) (cfg : Cfg) (pl : Player) (bonus wS : ℚ)
    (acc : PerfAcc) (g : Gate) : PerfAcc :=
  if g.cleared then { acc with gates := acc.gates ++ [g] }
  else
    let pAxis := match g.axis with | Axis.x => pl.x | Axis.y => pl.y
    if g.crossed pAxis then
      let g := { g with cleared := true }
      let perp := match g.axis with | Axis.x => pl.y | Axis.y => pl.x
      let dist := |perp - g.gapCenter|
      let thresh := max 3 (g.gapHalf * wS) * 1.10
      if dist ≤ thresh then
        let fd := clamp (numOr cfg.scoring.perfect.flashDuration 0.55) 0.15 2.0
        let f := mkFloatText src ("+" ++ toString bonus) pl.x (pl.y - pl.r * 2.0)
          (Color.css "rgba(255,255,255,.95)") acc.k
        let burst := perfectParticles pr src pl.x pl.y 28 f.2
        { gates := acc.gates ++ [g]
          score := acc.score + bonus
          perfectT := fd
          perfectMax := fd
          floats := acc.floats ++ [f.1]
          parts := acc.parts ++ burst.1
          k := burst.2 }
      else { acc with gates := acc.gates ++ [g] }
    else { acc with gates := acc.gates ++ [g] }

/-- The gate update + PERFECT block of `update` (game.js 799–829). -/
def gatesPerfectPass (pr : Prims) (src : ℕ → ℚ) (cfg : Cfg) (dt : ℚ) (s : GameState) :
    GameState :=
  let gates := s.gates.map (fun g => g.update dt s.W s.H)
  if cfg.scoring.perfect.enabled then
    let bonus := max 0 (numOr cfg.scoring.perfect.bonus 0)
    let wS := clamp (numOr cfg.scoring.perfect.windowScale 0.075) 0 1
    let acc := gates.foldl (perfectGate pr src cfg s.player bonus wS)
      ⟨[], s.score, s.perfectT, s.perfectMax, s.floats, s.parts, s.rng⟩
    { s with
      gates := acc.gates
      score := acc.score
      perfectT := acc.perfectT
      perfectMax := acc.perfectMax
      floats := acc.floats
      parts := acc.parts
      rng := acc.k }
  else { s with gates := gates }

/-! ## game.js: pipe motion, orb expiry, orb pickup -/

/-- The pipe-motion block of `update` (slow-field multiplier per pipe). -/
def pipesMovePass (dt : ℚ) (s : GameState) : GameState :=
  let pipes := s.pipes.map (fun p =>
    let mul : ℚ :=
      match s.slowField with
      | some f =>
        let dx := p.cx - f.x
        let dy := p.cy - f.y
        if dx * dx + dy * dy ≤ f.r * f.r then f.fac else 1
      | none => 1
    p.update dt mul s.W s.H)
  { s with pipes := pipes }

/-- The orb aging/expiry block of `update` (game.js 841–850): age every
orb, drop the dead ones, and break the combo if any expired. -/
def orbExpiryPass (src : ℕ → ℚ) (dt : ℚ) (s : GameState) : GameState :=
  let updated := s.orbs.map (fun o => o.update dt s.W s.H)
  let kept := updated.filter (fun o => ¬o.dead)
  let expired := updated.any (fun o => o.dead)
  if expired then
    let ui := skillUI s.W s.H
    let bc := breakCombo src s.combo s.floats (ui.barX + ui.barW * 0.5) (ui.barY - 10) s.rng
    { s with
      orbs := kept
      floats := bc.1
      combo := bc.2.1
      comboBreakFlash := bc.2.2.1
      rng := bc.2.2.2 }
  else { s with orbs := kept }

/-- The 18-particle orb pickup burst (game.js 872–877). -/
def pickupParticles (pr : Prims) (src : ℕ → ℚ) (ox oy : ℚ) : ℕ → ℕ → List Part × ℕ
  | 0, k => ([], k)
  | m + 1, k =>
    let ra := randR src 0 (pr.pi * 2) k
    let rsp := randR src 40 240 ra.2
    let rlife := randR src 0.18 0.38 rsp.2
    let rsize := randR src 1.0 2.0 rlife.2
    let prt : Part := ⟨ox, oy, pr.cos ra.1 * rsp.1, pr.sin ra.1 * rsp.1,
      rlife.1, rlife.1, rsize.1, Color.css "rgba(255,255,255,.7)", true, 10⟩
    let rest := pickupParticles pr src ox oy m rsize.2
    (prt :: rest.1, rest.2)

/-- Accumulator of the orb-pickup loop.  The loop iterates the `orbs`
array from its last index down to 0, so the fold below runs over the
reversed list; `kept` collects the orbs not picked up, ending up back in
their original relative order. -/
structure PickAcc where
  kept : List Orb
  (combo score : ℚ)
  floats : List FloatText
  parts : List Part
  k : ℕ

/-- One iteration of the orb-pickup loop (game.js 853–879). -/
def pickupOrb (pr : Prims) (src : ℕ → ℚ) (cfg : Cfg) (pl : Player)
    (acc : PickAcc) (o : Orb) : PickAcc :=
  if circleCircle pl.x pl.y pl.r o.x o.y o.r then
    let maxC := max 1 (numOr cfg.scoring.orbComboMax 30)
    let combo := min maxC (acc.combo + 1)
    let pts := orbPoints cfg combo
    let score := acc.score + (pts : ℚ)
    let col :=
      if combo ≥ numOr cfg.ui.comboBar.glowAt 9999 then Color.css "rgba(255,255,255,.98)"
      else Color.css "rgba(120,210,255,.95)"
    let f := mkFloatText src ("+" ++ toString pts) o.x o.y col acc.k
    let burst := pickupParticles pr src o.x o.y 18 f.2
    { kept := acc.kept
      combo := combo
      score := score
      floats := acc.floats ++ [f.1]
      parts := acc.parts ++ burst.1
      k := burst.2 }
  else { acc with kept := o :: acc.kept }

/-- The orb-pickup block of `update`. -/
def orbPickupPass (pr : Prims) (src : ℕ → ℚ) (cfg : Cfg) (s : GameState) : GameState :=
  let acc := s.orbs.reverse.foldl (pickupOrb pr src cfg s.player)
    ⟨[], s.combo, s.score, s.floats, s.parts, s.rng⟩
  { s with
    orbs := acc.kept
    combo := acc.combo
    score := acc.score
    floats := acc.floats
    parts := acc.parts
    rng := acc.k }

/-! ## game.js: collision, culling, fx, caps, and the full `update` -/

/-- The player/pipe collision test of `update` (via util.js `circleRect`). -/
def collides (pl : Player) (p : Pipe) : Bool :=
  circleRect pl.x pl.y pl.r p.x p.y p.w p.h

/-- The pipe/gate off-field culling with dodge scoring (game.js 893–904). -/
def pipeRemovalPass (cfg : Cfg) (s : GameState) : GameState :=
  let m := margin s.W s.H
  let dodge := max 0 (numOr cfg.scoring.pipeDodge 0)
  let removedUnscored := (s.pipes.filter (fun p => p.off s.W s.H m ∧ ¬p.scored)).length
  { s with
    score := s.score + (removedUnscored : ℚ) * dodge
    pipes := s.pipes.filter (fun p => ¬p.off s.W s.H m)
    gates := s.gates.filter (fun g => ¬g.off s.W s.H m) }

/-- The fx update/cleanup block of `update` (game.js 907–910). -/
def fxPass (pr : Prims) (dt : ℚ) (s : GameState) : GameState :=
  { s with
    parts := (s.parts.map (fun p => p.update pr dt)).filter (fun p => ¬p.life ≤ 0)
    floats := (s.floats.map (fun f => f.update pr dt)).filter (fun f => ¬f.life ≤ 0) }

/-- The hard caps of `update` (game.js 912–915): `splice(0, len − cap)`
drops the *oldest* entries when a list exceeds its cap. -/
def capsPass (s : GameState) : GameState :=
  { s with
    pipes := if s.pipes.length > 280 then s.pipes.drop (s.pipes.length - 280) else s.pipes
    parts := if s.parts.length > 1100 then s.parts.drop (s.parts.length - 1100) else s.parts
    floats := if s.floats.length > 80 then s.floats.drop (s.floats.length - 80) else s.floats }

/-- The pipes evicted by the pipes cap (the prefix removed by
`this.pipes.splice(0, this.pipes.length - 280)`). -/
def droppedPipes (s : GameState) : List Pipe :=
  if s.pipes.length > 280 then s.pipes.take (s.pipes.length - 280) else []

/-- The gameplay phase of one `Game.update(dt)` tick up to (but excluding)
the collision check: timers, player, trail, sparkles, spawning, gates +
PERFECT, pipe motion, orb expiry, orb pickup, in source order. -/
def stepCore (pr : Prims) (cfg : Cfg) (src : ℕ → ℚ) (trail : TrailId) (fuel : ℕ)
    (move : Move) (dt : ℚ) (s : GameState) : GameState :=
  let s := timersPass dt s
  let s := updatePlayerPass pr cfg move dt s
  let s := emitTrailPass pr src trail dt s
  let s := sparklesPass pr src cfg dt s
  let s := spawnPipesPass pr src cfg fuel dt s
  let s := specialPass pr src cfg dt s
  let s := orbSpawnPass pr src cfg dt s
  let s := gatesPerfectPass pr src cfg dt s
  let s := pipesMovePass dt s
  let s := orbExpiryPass src dt s
  orbPickupPass pr src cfg s

/-- `Game.update(dt)`.  In the `OVER` state the method returns at once
(everything frozen); in `MENU` it only drifts the rendering-only
background dots (not part of the embedded state) and returns; in `PLAY`
it runs `stepCore`, then the collision check (a hit sets `OVER` and
returns immediately — `onGameOver` is an external callback), then
culling, fx cleanup and the hard caps. -/
def gameUpdate (pr : Prims) (cfg : Cfg) (src : ℕ → ℚ) (trail : TrailId) (fuel : ℕ)
    (move : Move) (dt : ℚ) (s : GameState) : GameState :=
  if s.state = GState.over then s
  else if s.state ≠ GState.play then s
  else
    let s1 := stepCore pr cfg src trail fuel move dt s
    if s1.player.invT ≤ 0 ∧ s1.pipes.any (collides s1.player) then
      { s1 with state := GState.over }
    else
      capsPass (fxPass pr dt (pipeRemovalPass cfg s1))

/-! ## game.js: run lifecycle -/

/-- `Game._resetPlayer()` (dash direction cache is *not* reset). -/
def resetPlayer (s : GameState) : Player :=
  { s.player with
    x := s.W * 0.5
    y := s.H * 0.5
    vx := 0
    vy := 0
    invT := 0
    dashT := 0
    lastX := 0
    lastY := -1 }

/-- `Game._resetRun(clearScore)`: clears entities, timers, combo, skills;
draws once for the initial orb interval. -/
def resetRun (src : ℕ → ℚ) (cfg : Cfg) (clearScore : Bool) (s : GameState) : GameState :=
  let rOrbT := randR src cfg.catalysts.orbs.intervalMin cfg.catalysts.orbs.intervalMax s.rng
  { s with
    pipes := []
    gates := []
    orbs := []
    parts := []
    floats := []
    score := if clearScore then 0 else s.score
    timeAlive := 0
    pipeT := 0
    specialT := 1.6
    orbT := rOrbT.1
    combo := 0
    comboBreakFlash := 0
    comboSparkAcc := 0
    perfectT := 0
    perfectMax := 0
    slowField := none
    cds := ⟨0, 0, 0, 0⟩
    trailAcc := 0
    trailHue := 0
    player := resetPlayer s
    rng := rOrbT.2 }

/-- `Game.startRun()`: enter `PLAY` and reset the run. -/
def startRun (src : ℕ → ℚ) (cfg : Cfg) (s : GameState) : GameState :=
  resetRun src cfg true { s with state := GState.play }

/-! ## main.js: fixed-timestep live loop and replay playback

`SIM_DT = 1/120`; the accumulator of `frame(ts)` turns display frames into
a flat sequence of fixed ticks, and rendering/`requestAnimationFrame` have
no effect on the simulation state, so the live run is embedded as that
flat tick sequence.  Discrete actions are enqueued by the input layer
between ticks (`activeRun.pendingActions`) and drained at the next tick
boundary; each carries the pointer position captured at activation time. -/

/-- The fixed simulation timestep (main.js `SIM_DT = 1 / 120`). -/
def SIM_DT : ℚ := 1/120

/-- A queued discrete action: identifier plus the pointer at activation. -/
structure ActionRec where
  id : SkillName
  cursor : Cursor
deriving DecidableEq, Repr

/-- One record of `activeRun.ticks`: the tick's input snapshot and the
actions drained at that tick boundary. -/
structure TickRec where
  move : Move
  cursor : Cursor
  actions : List ActionRec
deriving DecidableEq, Repr

/-- The live-input environment of one tick: the movement intent and
pointer at the tick boundary (`input.snapshot()`), and the actions the
input layer enqueued since the previous tick. -/
structure LiveEnv where
  move : Move
  cursor : Cursor
  pending : List ActionRec
deriving DecidableEq, Repr

/-- Applying a drained action batch: before each action the input cursor
is restored to that action's recorded activation-time pointer, then
`game.handleAction(a.id)` runs (identical in `frame` and `playReplay`). -/
def applyActions (pr : Prims) (cfg : Cfg) (src : ℕ → ℚ) (move : Move)
    (acts : List ActionRec) (s : GameState) : GameState :=
  acts.foldl (fun s a => handleAction pr cfg src move a.cursor a.id s) s

/-- The live fixed-timestep loop of `frame` (main.js 746–802), flattened
over tick environments: per tick it snapshots the input, drains and
records the pending actions, applies them, steps the simulation once, and
stops recording when the run ends.  Returns the final state, the recorded
tick log, and the post-tick state trace. -/
def liveRun (pr : Prims) (cfg : Cfg) (src : ℕ → ℚ) (trail : TrailId) (fuel : ℕ)
    (dt : ℚ) : List LiveEnv → GameState → GameState × List TickRec × List GameState
  | [], s => (s, [], [])
  | e :: es, s =>
    let acts := if s.state = GState.play then e.pending else []
    let recs : List TickRec := if s.state = GState.play then [⟨e.move, e.cursor, acts⟩] else []
    let s1 := applyActions pr cfg src e.move acts s
    let s2 := gameUpdate pr cfg src trail fuel e.move dt s1
    if s2.state = GState.over then (s2, recs, [s2])
    else
      let rest := liveRun pr cfg src trail fuel dt es s2
      (rest.1, recs ++ rest.2.1, s2 :: rest.2.2)

/-- The playback loop of `playReplay` (main.js 413–440): per stored tick
it installs the recorded movement/pointer on the fake replay input,
applies the stored actions (restoring each action's activation-time
pointer first), steps the simulation exactly once, and halts early when
the replayed run reaches `OVER`.  Returns the final state and the
post-tick state trace. -/
def replayRun (pr : Prims) (cfg : Cfg) (src : ℕ → ℚ) (trail : TrailId) (fuel : ℕ)
    (dt : ℚ) : List TickRec → GameState → GameState × List GameState
  | [], s => (s, [])
  | tk :: ts, s =>
    let s1 := applyActions pr cfg src tk.move tk.actions s
    let s2 := gameUpdate pr cfg src trail fuel tk.move dt s1
    if s2.state = GState.over then (s2, [s2])
    else
      let rest := replayRun pr cfg src trail fuel dt ts s2
      (rest.1, s2 :: rest.2)

/-! ## main.js: random-source plumbing of recording and playback

The module-level swappable source `_rand01` (util.js) is modelled as the
value of the last `setRandSource` call; a source that can fail (the tape
player) yields `Option ℚ`. -/

/-- util.js `setRandSource(fn)`: assignment to the module-level source. -/
def setRandSource (_cur new : ℕ → Option ℚ) : ℕ → Option ℚ := new

/-- The always-succeeding stream of `createSeededRand(seed)`. -/
def seededSource (seed : List ℕ) : ℕ → Option ℚ := fun k => some (mulberrySeq seed k)

/-- The stream of `createTapeRandPlayer(tape)`: `none` is the thrown
"RNG tape underrun" error. -/
def tapePlayerSource (tape : List ℚ) : ℕ → Option ℚ := fun k => tapePlayerCall tape k

/-- The stream of `createTapeRandRecorder(seed, tape)` (it returns the
wrapped seeded stream's values while appending them to the tape). -/
def recorderSource (seed : List ℕ) : ℕ → Option ℚ := fun k => some (recorderCall seed k)

/-- A captured run (`activeRun` in main.js). -/
structure RunCapture where
  seed : List ℕ
  ticks : List TickRec
  rngTape : List ℚ
  ended : Bool

/-- The random source left installed by `playReplay` when the tick loop
starts: line 369 installs `createTapeRandPlayer(activeRun.rngTape)`, but
line 381 then executes `setRandSource(createSeededRand(activeRun.seed))`,
so the later assignment wins and playback never consults the tape. -/
def playReplayEffectiveSource (run : RunCapture) : ℕ → Option ℚ :=
  setRandSource (setRandSource (seededSource run.seed) (tapePlayerSource run.rngTape))
    (seededSource run.seed)

/-! ## Frame-invariance lemmas for the update passes

Each pass of `Game.update` mutates only the fields it writes; these
projection lemmas record that and drive the structural proofs below. -/

section PassLemmas

variable (pr : Prims) (cfg : Cfg) (src : ℕ → ℚ) (trail : TrailId) (fuel : ℕ)
variable (move : Move) (cursor : Cursor) (dt : ℚ) (s : GameState)

@[simp] theorem timersPass_state : (timersPass dt s).state = s.state := rfl

@[simp] theorem timersPass_player : (timersPass dt s).player = s.player := rfl

@[simp] theorem timersPass_W : (timersPass dt s).W = s.W := rfl

@[simp] theorem timersPass_H : (timersPass dt s).H = s.H := rfl

@[simp] theorem updatePlayerPass_state : (updatePlayerPass pr cfg move dt s).state = s.state := rfl

@[simp] theorem updatePlayerPass_player :
    (updatePlayerPass pr cfg move dt s).player = updatePlayerFn pr cfg move dt s.W s.H s.player :=
  rfl

@[simp] theorem updatePlayerPass_W : (updatePlayerPass pr cfg move dt s).W = s.W := rfl

@[simp] theorem updatePlayerPass_H : (updatePlayerPass pr cfg move dt s).H = s.H := rfl

@[simp] theorem emitTrailPass_state : (emitTrailPass pr src trail dt s).state = s.state := rfl

@[simp] theorem emitTrailPass_player : (emitTrailPass pr src trail dt s).player = s.player := rfl

@[simp] theorem emitTrailPass_W : (emitTrailPass pr src trail dt s).W = s.W := rfl

@[simp] theorem emitTrailPass_H : (emitTrailPass pr src trail dt s).H = s.H := rfl

@[simp] theorem sparklesPass_state : (sparklesPass pr src cfg dt s).state = s.state := by
  simp only [sparklesPass]; split <;> rfl

@[simp] theorem sparklesPass_player : (sparklesPass pr src cfg dt s).player = s.player := by
  simp only [sparklesPass]; split <;> rfl

@[simp] theorem sparklesPass_W : (sparklesPass pr src cfg dt s).W = s.W := by
  simp only [sparklesPass]; split <;> rfl

@[simp] theorem sparklesPass_H : (sparklesPass pr src cfg dt s).H = s.H := by
  simp only [sparklesPass]; split <;> rfl

@[simp] theorem spawnPipesPass_state : (spawnPipesPass pr src cfg fuel dt s).state = s.state := rfl

@[simp] theorem spawnPipesPass_player :
    (spawnPipesPass pr src cfg fuel dt s).player = s.player := rfl

@[simp] theorem spawnPipesPass_W : (spawnPipesPass pr src cfg fuel dt s).W = s.W := rfl

@[simp] theorem spawnPipesPass_H : (spawnPipesPass pr src cfg fuel dt s).H = s.H := rfl

@[simp] theorem specialPass_state : (specialPass pr src cfg dt s).state = s.state := by
  simp only [specialPass]; split <;> rfl

@[simp] theorem specialPass_player : (specialPass pr src cfg dt s).player = s.player := by
  simp only [specialPass]; split <;> rfl

@[simp] theorem specialPass_W : (specialPass pr src cfg dt s).W = s.W := by
  simp only [specialPass]; split <;> rfl

@[simp] theorem specialPass_H : (specialPass pr src cfg dt s).H = s.H := by
  simp only [specialPass]; split <;> rfl

@[simp] theorem orbSpawnPass_state : (orbSpawnPass pr src cfg dt s).state = s.state := by
  simp only [orbSpawnPass]; split <;> first | rfl | (split <;> rfl)

@[simp] theorem orbSpawnPass_player : (orbSpawnPass pr src cfg dt s).player = s.player := by
  simp only [orbSpawnPass]; split <;> first | rfl | (split <;> rfl)

@[simp] theorem orbSpawnPass_W : (orbSpawnPass pr src cfg dt s).W = s.W := by
  simp only [orbSpawnPass]; split <;> first | rfl | (split <;> rfl)

@[simp] theorem orbSpawnPass_H : (orbSpawnPass pr src cfg dt s).H = s.H := by
  simp only [orbSpawnPass]; split <;> first | rfl | (split <;> rfl)

@[simp] theorem gatesPerfectPass_state : (gatesPerfectPass pr src cfg dt s).state = s.state := by
  simp only [gatesPerfectPass]; split <;> rfl

@[simp] theorem gatesPerfectPass_player : (gatesPerfectPass pr src cfg dt s).player = s.player := by
  simp only [gatesPerfectPass]; split <;> rfl

@[simp] theorem gatesPerfectPass_W : (gatesPerfectPass pr src cfg dt s).W = s.W := by
  simp only [gatesPerfectPass]; split <;> rfl

@[simp] theorem gatesPerfectPass_H : (gatesPerfectPass pr src cfg dt s).H = s.H := by
  simp only [gatesPerfectPass]; split <;> rfl

@[simp] theorem pipesMovePass_state : (pipesMovePass dt s).state = s.state := rfl

@[simp] theorem pipesMovePass_player : (pipesMovePass dt s).player = s.player := rfl

@[simp] theorem pipesMovePass_W : (pipesMovePass dt s).W = s.W := rfl

@[simp] theorem pipesMovePass_H : (pipesMovePass dt s).H = s.H := rfl

@[simp] theorem orbExpiryPass_state : (orbExpiryPass src dt s).state = s.state := by
  simp only [orbExpiryPass]; split <;> rfl

@[simp] theorem orbExpiryPass_player : (orbExpiryPass src dt s).player = s.player := by
  simp only [orbExpiryPass]; split <;> rfl

@[simp] theorem orbExpiryPass_W : (orbExpiryPass src dt s).W = s.W := by
  simp only [orbExpiryPass]; split <;> rfl

@[simp] theorem orbExpiryPass_H : (orbExpiryPass src dt s).H = s.H := by
  simp only [orbExpiryPass]; split <;> rfl

@[simp] theorem orbPickupPass_state : (orbPickupPass pr src cfg s).state = s.state := rfl

@[simp] theorem orbPickupPass_player : (orbPickupPass pr src cfg s).player = s.player := rfl

@[simp] theorem orbPickupPass_W : (orbPickupPass pr src cfg s).W = s.W := rfl

@[simp] theorem orbPickupPass_H : (orbPickupPass pr src cfg s).H = s.H := rfl

@[simp] theorem pipeRemovalPass_state : (pipeRemovalPass cfg s).state = s.state := rfl

@[simp] theorem pipeRemovalPass_player : (pipeRemovalPass cfg s).player = s.player := rfl

@[simp] theorem pipeRemovalPass_W : (pipeRemovalPass cfg s).W = s.W := rfl

@[simp] theorem pipeRemovalPass_H : (pipeRemovalPass cfg s).H = s.H := rfl

@[simp] theorem fxPass_state : (fxPass pr dt s).state = s.state := rfl

@[simp] theorem fxPass_player : (fxPass pr dt s).player = s.player := rfl

@[simp] theorem fxPass_W : (fxPass pr dt s).W = s.W := rfl

@[simp] theorem fxPass_H : (fxPass pr dt s).H = s.H := rfl

@[simp] theorem capsPass_state : (capsPass s).state = s.state := rfl

@[simp] theorem capsPass_player : (capsPass s).player = s.player := rfl

@[simp] theorem capsPass_W : (capsPass s).W = s.W := rfl

@[simp] theorem capsPass_H : (capsPass s).H = s.H := rfl

@[simp] theorem useSkill_state (name : SkillName) :
    (useSkill pr cfg src move cursor name s).state = s.state := by
  cases name <;> simp only [useSkill] <;> split <;> first | rfl | (split <;> rfl)

@[simp] theorem handleAction_state (name : SkillName) :
    (handleAction pr cfg src move cursor name s).state = s.state := by
  unfold handleAction; split <;> simp

theorem applyActions_state (acts : List ActionRec) :
    (applyActions pr cfg src move acts s).state = s.state := by
  induction acts generalizing s with
  | nil => rfl
  | cons a as ih =>
    show (applyActions pr cfg src move as (handleAction pr cfg src move a.cursor a.id s)).state =
      s.state
    rw [ih]
    simp

@[simp] theorem stepCore_state : (stepCore pr cfg src trail fuel move dt s).state = s.state := by
  unfold stepCore; simp

@[simp] theorem stepCore_W : (stepCore pr cfg src trail fuel move dt s).W = s.W := by
  unfold stepCore; simp

@[simp] theorem stepCore_H : (stepCore pr cfg src trail fuel move dt s).H = s.H := by
  unfold stepCore; simp

@[simp] theorem stepCore_player :
    (stepCore pr cfg src trail fuel move dt s).player =
      updatePlayerFn pr cfg move dt s.W s.H s.player := by
  unfold stepCore; simp

/-- `update` in the `OVER` state is the identity (game.js 710). -/
theorem gameUpdate_frozen (h : s.state = GState.over) :
    gameUpdate pr cfg src trail fuel move dt s = s := by
  unfold gameUpdate; rw [if_pos h]

/-- From `PLAY`, one tick ends in `PLAY` or in `OVER`. -/
theorem gameUpdate_state_play (h : s.state = GState.play) :
    (gameUpdate pr cfg src trail fuel move dt s).state = GState.play ∨
      (gameUpdate pr cfg src trail fuel move dt s).state = GState.over := by
  unfold gameUpdate
  rw [if_neg (by rw [h]; intro hc; cases hc), if_neg (by rw [h]; simp)]
  dsimp only
  split
  · exact Or.inr rfl
  · left; simp [h]

/-- In a `PLAY` tick, the player after `update` is exactly the player
produced by `_updatePlayer` (no later pass touches the player). -/
theorem gameUpdate_player (h : s.state = GState.play) :
    (gameUpdate pr cfg src trail fuel move dt s).player =
      updatePlayerFn pr cfg move dt s.W s.H s.player := by
  unfold gameUpdate
  rw [if_neg (by rw [h]; intro hc; cases hc), if_neg (by rw [h]; simp)]
  dsimp only
  split <;> simp

/-- `update` preserves the play-area dimensions. -/
theorem gameUpdate_W (h : s.state = GState.play) :
    (gameUpdate pr cfg src trail fuel move dt s).W = s.W := by
  unfold gameUpdate
  rw [if_neg (by rw [h]; intro hc; cases hc), if_neg (by rw [h]; simp)]
  dsimp only
  split <;> simp

theorem gameUpdate_H (h : s.state = GState.play) :
    (gameUpdate pr cfg src trail fuel move dt s).H = s.H := by
  unfold gameUpdate
  rw [if_neg (by rw [h]; intro hc; cases hc), if_neg (by rw [h]; simp)]
  dsimp only
  split <;> simp

end PassLemmas

/-! ## Concrete instances used by witnesses and counterexamples -/

/-- A computable instantiation of the transcendental primitives (used only
to *instantiate* universally quantified theorems at concrete inputs). -/
def trivPrims : Prims := ⟨fun _ => 1, fun _ => 0, fun _ => 0, fun _ _ => 0, 0⟩

/-- A primitive instantiation whose `hypot` is the taxicab norm; it agrees
with the real `Math.hypot` on axis-aligned unit vectors, which is all the
dash counterexample exercises. -/
def unitPrims : Prims := ⟨fun _ => 1, fun _ => 0, fun _ => 0, fun x y => |x| + |y|, 0⟩

/-- A constant random source for concrete instantiations. -/
def zeroSrc : ℕ → ℚ := fun _ => 0

/-- A concrete in-bounds player (radius 10) at the centre of a 200×200 field. -/
def demoPlayer : Player := ⟨100, 100, 0, 0, 48, 48, 10, 0, -1, 0, 0, 0, 0⟩

/-- A concrete quiescent `PLAY` state: no entities, all spawn timers far
from firing, combo 0. -/
def demoState : GameState where
  state := GState.play
  W := 200
  H := 200
  canvasW := 200
  canvasH := 200
  player := demoPlayer
  pipes := []
  gates := []
  orbs := []
  parts := []
  floats := []
  score := 0
  timeAlive := 0
  pipeT := 1000
  specialT := 1000
  orbT := 1000
  combo := 0
  comboBreakFlash := 0
  comboSparkAcc := 0
  perfectT := 0
  perfectMax := 0
  slowField := none
  cds := ⟨0, 0, 0, 0⟩
  trailAcc := 0
  trailHue := 0
  rng := 0

/-- A stationary unscored pipe overlapping `demoPlayer`. -/
def pipeAtPlayer : Pipe := mkPipe 90 90 20 20 0 0

/-! ## C2 — the replay random source (code bug)

Spec (§4.6, §7): during playback the simulation's draws must be served by
a `RandomTape` Player primed from the recorded tape, and tape underrun
must abort playback fatally, never substituting a fresh draw.  In the
code, `playReplay` installs the tape player (main.js 369) but immediately
afterwards executes `setRandSource(createSeededRand(activeRun.seed))`
(main.js 381), so the source actually consulted during playback is a
fresh seeded generator: the recorded tape (diligently captured by
`startGame`, main.js 617) is never read, and an underrun can never fire. -/

/-- C2: the source left installed by `playReplay` is the fresh seeded
generator for *every* captured run, and concretely, on a run whose tape
is empty, the first playback draw succeeds with a fresh value where the
spec demands a fatal tape-underrun abort (`tapePlayerSource [] 0 = none`). -/
theorem playReplay_source_bypasses_tape :
    (∀ run : RunCapture, playReplayEffectiveSource run = seededSource run.seed) ∧
      playReplayEffectiveSource ⟨[120], [], [], true⟩ 0 = some (mulberrySeq [120] 0) ∧
      tapePlayerSource ([] : List ℚ) 0 = none := by
  refine ⟨fun run => rfl, rfl, rfl⟩

/-! ## C3 — tape round-trip fidelity -/

/-- C3: for every seed string and every `n`, the tape written by `n`
recorder calls, played back through `createTapeRandPlayer`, reproduces
exactly the same values in the same order (exact `ℚ` equality). -/
theorem tape_roundtrip (seed : List ℕ) (n k : ℕ) (h : k < n) :
    tapePlayerCall (recorderTape seed n) k = some (recorderCall seed k) := by
  unfold tapePlayerCall recorderTape
  have hlen : ((List.range n).map (recorderCall seed)).length = n := by simp
  rw [dif_pos (by simpa [hlen] using h)]
  simp [List.get_eq_getElem]

/-- Witness for C3 at seed "x" (`charCodeAt` 120), a 3-call tape, call 1. -/
theorem tape_roundtrip_witness :
    1 < 3 ∧ tapePlayerCall (recorderTape [120] 3) 1 = some (recorderCall [120] 1) :=
  ⟨by norm_num, tape_roundtrip [120] 3 1 (by norm_num)⟩

/-! ## C4 — SeededRandom determinism and range -/

/-- A `createSeededRand(seedStr)` generator instance: the state of its
mulberry32 closure. -/
structure SeededGen where
  a : ℕ

/-- util.js `createSeededRand(seedStr)`. -/
def createSeededRand (str : List ℕ) : SeededGen := ⟨seedOf str⟩

/-- The value returned by the `k`-th call (0-based) of a generator
instance: the closure advances its state, then mixes. -/
def SeededGen.output (g : SeededGen) (k : ℕ) : ℚ := mulberryVal (mulberryA g.a (k + 1))

/-- The mulberry32 output mixing always lands in `[0, 1)`: the `>>> 0`
conversion keeps the numerator below `2 ^ 32`. -/
theorem mulberryVal_mem (t0 : ℕ) : 0 ≤ mulberryVal t0 ∧ mulberryVal t0 < 1 := by
  have hlt : ∀ m : ℕ, ((m % M32 : ℕ) : ℚ) < 4294967296 := by
    intro m
    have h := Nat.mod_lt m (show 0 < M32 by norm_num [M32])
    calc ((m % M32 : ℕ) : ℚ) < ((M32 : ℕ) : ℚ) := by exact_mod_cast h
      _ = 4294967296 := by norm_num [M32]
  unfold mulberryVal
  constructor
  · positivity
  · rw [div_lt_one (by norm_num)]
    exact hlt _

/-- C4: two generators created from equal seed strings produce identical
output sequences, and every output of any generator lies in `[0, 1)`. -/
theorem seededRand_deterministic_and_range :
    (∀ (s1 s2 : List ℕ), s1 = s2 → ∀ k : ℕ,
        (createSeededRand s1).output k = (createSeededRand s2).output k) ∧
      ∀ (str : List ℕ) (k : ℕ),
        0 ≤ (createSeededRand str).output k ∧ (createSeededRand str).output k < 1 := by
  constructor
  · intro s1 s2 h k
    rw [h]
  · intro str k
    exact mulberryVal_mem _

/-- Witness for C4 at the one-character seed "a" (`charCodeAt` 97), call 0. -/
theorem seededRand_witness :
    (createSeededRand [97]).output 0 = (createSeededRand [97]).output 0 ∧
      0 ≤ (createSeededRand [97]).output 0 ∧ (createSeededRand [97]).output 0 < 1 :=
  ⟨seededRand_deterministic_and_range.1 [97] [97] rfl 0,
    (seededRand_deterministic_and_range.2 [97] 0).1,
    (seededRand_deterministic_and_range.2 [97] 0).2⟩

/-! ## C8 — entity caps (corrected)

The caps (game.js 912–915) do evict oldest-first, but the pipes cap
applies to live obstacles: with more than 280 pipes, the oldest pipe is
evicted regardless of whether it is unscored (still able to award the
dodge score) or currently overlapping the player (certainly still able
to collide).  The claim's safety property is therefore false. -/

/-- The claim's eviction-safety property as stated: every pipe evicted by
the caps is stale — already scored and not in collision with the player. -/
def capsEvictionSafe (s : GameState) : Prop :=
  ∀ p ∈ droppedPipes s, p.scored = true ∧ collides s.player p = false

/-- A state with 281 copies of an unscored pipe overlapping the player. -/
def capDemoState : GameState := { demoState with pipes := List.replicate 281 pipeAtPlayer }

/-- C8 counterexample: on `capDemoState` the pipes cap evicts an unscored
pipe that currently overlaps the player — an obstacle that can still both
collide and award the dodge score. -/
theorem caps_evict_live_pipe :
    ¬capsEvictionSafe capDemoState ∧
      collides capDemoState.player pipeAtPlayer = true ∧ pipeAtPlayer.scored = false := by
  refine ⟨?_, ?_, rfl⟩
  case refine_2 =>
    show collides capDemoState.player pipeAtPlayer = true
    norm_num [collides, circleRect, clamp, capDemoState, demoState, demoPlayer, pipeAtPlayer,
      mkPipe, max_def, min_def]
  intro hcl
  have hmem : pipeAtPlayer ∈ droppedPipes capDemoState := by
    have hd : droppedPipes capDemoState = List.replicate 1 pipeAtPlayer := by
      unfold droppedPipes
      have hp : capDemoState.pipes = List.replicate 281 pipeAtPlayer := rfl
      rw [hp, List.length_replicate]
      norm_num [List.take_replicate]
    rw [hd]
    exact List.mem_replicate.mpr ⟨one_ne_zero, rfl⟩
  have h := hcl _ hmem
  simp [pipeAtPlayer, mkPipe] at h

/-- C8 amended: the caps evict exactly the oldest prefix beyond each cap
(280 pipes / 1100 particles / 80 floats) — the retained lists are
suffixes, nothing is evicted while within the caps, and the evicted
pipes are precisely `droppedPipes` — with no regard to whether an evicted
obstacle could still collide or score. -/
theorem caps_oldest_first (s : GameState) :
    ((capsPass s).pipes <:+ s.pipes ∧ (capsPass s).pipes.length = min s.pipes.length 280) ∧
      ((capsPass s).parts <:+ s.parts ∧ (capsPass s).parts.length = min s.parts.length 1100) ∧
      ((capsPass s).floats <:+ s.floats ∧ (capsPass s).floats.length = min s.floats.length 80) ∧
      droppedPipes s ++ (capsPass s).pipes = s.pipes := by
  refine ⟨⟨?_, ?_⟩, ⟨?_, ?_⟩, ⟨?_, ?_⟩, ?_⟩
  · show (if s.pipes.length > 280 then s.pipes.drop (s.pipes.length - 280) else s.pipes) <:+
      s.pipes
    split
    · exact List.drop_suffix _ _
    · exact List.suffix_refl _
  · show (if s.pipes.length > 280 then s.pipes.drop (s.pipes.length - 280) else s.pipes).length =
      min s.pipes.length 280
    split <;> rename_i h <;> simp [List.length_drop] <;> omega
  · show (if s.parts.length > 1100 then s.parts.drop (s.parts.length - 1100) else s.parts) <:+
      s.parts
    split
    · exact List.drop_suffix _ _
    · exact List.suffix_refl _
  · show (if s.parts.length > 1100 then
        s.parts.drop (s.parts.length - 1100) else s.parts).length = min s.parts.length 1100
    split <;> rename_i h <;> simp [List.length_drop] <;> omega
  · show (if s.floats.length > 80 then s.floats.drop (s.floats.length - 80) else s.floats) <:+
      s.floats
    split
    · exact List.drop_suffix _ _
    · exact List.suffix_refl _
  · show (if s.floats.length > 80 then
        s.floats.drop (s.floats.length - 80) else s.floats).length = min s.floats.length 80
    split <;> rename_i h <;> simp [List.length_drop] <;> omega
  · show (if s.pipes.length > 280 then s.pipes.take (s.pipes.length - 280) else []) ++
      (if s.pipes.length > 280 then s.pipes.drop (s.pipes.length - 280) else s.pipes) = s.pipes
    by_cases h : s.pipes.length > 280
    · rw [if_pos h, if_pos h]
      exact List.take_append_drop _ _
    · rw [if_neg h, if_neg h]
      rfl

/-! ## C5 — invalid skill activation is a silent atomic no-op -/

/-- `cfg.skills[name].cooldown`. -/
def skillCooldown (cfg : Cfg) : SkillName → ℚ
  | SkillName.dash => cfg.skills.dash.cooldown
  | SkillName.phase => cfg.skills.phase.cooldown
  | SkillName.teleport => cfg.skills.teleport.cooldown
  | SkillName.slowField => cfg.skills.slowField.cooldown

theorem Cds.get_set_same (c : Cds) (n : SkillName) (v : ℚ) : (c.set n v).get n = v := by
  cases n <;> rfl

/-- C5: (i) activating any skill whose cooldown remaining is strictly
positive leaves the game state entirely unchanged; (ii) activating
teleport with no known pointer position (validity flag `false`) leaves
the state entirely unchanged; (iii) an activation at cooldown remaining
exactly 0 (with a valid pointer, for teleport) succeeds, starting that
skill's cooldown. -/
theorem useSkill_invalid_silent_noop :
    (∀ (pr : Prims) (cfg : Cfg) (src : ℕ → ℚ) (move : Move) (cursor : Cursor)
        (name : SkillName) (s : GameState), s.cds.get name > 0 →
        useSkill pr cfg src move cursor name s = s) ∧
      (∀ (pr : Prims) (cfg : Cfg) (src : ℕ → ℚ) (move : Move) (cursor : Cursor)
        (s : GameState), cursor.has = false →
        useSkill pr cfg src move cursor SkillName.teleport s = s) ∧
      ∀ (pr : Prims) (cfg : Cfg) (src : ℕ → ℚ) (move : Move) (cursor : Cursor)
        (name : SkillName) (s : GameState), s.cds.get name = 0 →
        (name = SkillName.teleport → cursor.has = true) →
        (useSkill pr cfg src move cursor name s).cds.get name =
          max 0 (numOr (skillCooldown cfg name) 0) := by
  refine ⟨?_, ?_, ?_⟩
  · intro pr cfg src move cursor name s h
    unfold useSkill
    rw [if_pos h]
  · intro pr cfg src move cursor s h
    unfold useSkill
    split
    · rfl
    · simp [h]
  · intro pr cfg src move cursor name s h hc
    have hng : ¬s.cds.get name > 0 := by rw [h]; exact lt_irrefl 0
    cases name <;> unfold useSkill <;> rw [if_neg hng] <;> dsimp only
    · exact Cds.get_set_same _ _ _
    · exact Cds.get_set_same _ _ _
    · rw [if_neg (fun hcond => hcond (hc rfl))]
      dsimp only
      exact Cds.get_set_same _ _ _
    · exact Cds.get_set_same _ _ _

/-- A state whose dash cooldown is still running. -/
def cdDemoState : GameState := { demoState with cds := ⟨5, 0, 0, 0⟩ }

/-- Witness for C5: dash rejected at cooldown 5 with no state change;
teleport without a pointer is a no-op; phase at cooldown exactly 0
succeeds and starts its 1.75 s cooldown. -/
theorem useSkill_invalid_silent_noop_witness :
    (cdDemoState.cds.get SkillName.dash > 0 ∧
        useSkill trivPrims defaultConfig zeroSrc ⟨0, 0⟩ ⟨0, 0, false⟩ SkillName.dash
          cdDemoState = cdDemoState) ∧
      ((⟨0, 0, false⟩ : Cursor).has = false ∧
        useSkill trivPrims defaultConfig zeroSrc ⟨0, 0⟩ ⟨0, 0, false⟩ SkillName.teleport
          demoState = demoState) ∧
      demoState.cds.get SkillName.phase = 0 ∧
        (useSkill trivPrims defaultConfig zeroSrc ⟨0, 0⟩ ⟨0, 0, false⟩ SkillName.phase
            demoState).cds.get SkillName.phase =
          max 0 (numOr (skillCooldown defaultConfig SkillName.phase) 0) := by
  refine ⟨⟨by norm_num [cdDemoState, Cds.get], ?_⟩, ⟨rfl, ?_⟩, rfl, ?_⟩
  · exact useSkill_invalid_silent_noop.1 _ _ _ _ _ _ _ (by norm_num [cdDemoState, Cds.get])
  · exact useSkill_invalid_silent_noop.2.1 _ _ _ _ _ _ rfl
  · exact useSkill_invalid_silent_noop.2.2 _ _ _ _ _ _ _ rfl (by intro hf; cases hf)

/-! ## C6 — orb pickup scoring -/

/-- C6: on every orb pickup the combo first increments to
`min(orbComboMax, combo + 1)` and the score then increases by
`round(orbBase + orbComboBonus · (newCombo − 1))`, the *incremented*
combo being used; with `orbBase = 5` and `orbComboBonus = 1` the pickups
at new combo 1, 2, 3 award 5, 6, 7 points, and after an orb expiry
(`_breakCombo`) the combo is 0 again, so the next pickup awards 5. -/
theorem orb_pickup_scoring :
    (∀ (pr : Prims) (src : ℕ → ℚ) (cfg : Cfg) (pl : Player) (acc : PickAcc) (o : Orb),
        circleCircle pl.x pl.y pl.r o.x o.y o.r = true →
        (pickupOrb pr src cfg pl acc o).combo =
            min (max 1 (numOr cfg.scoring.orbComboMax 30)) (acc.combo + 1) ∧
          (pickupOrb pr src cfg pl acc o).score =
            acc.score +
              ((orbPoints cfg (min (max 1 (numOr cfg.scoring.orbComboMax 30)) (acc.combo + 1)) :
                ℤ) : ℚ)) ∧
      (∀ cfg : Cfg, cfg.scoring.orbBase = 5 → cfg.scoring.orbComboBonus = 1 →
        orbPoints cfg 1 = 5 ∧ orbPoints cfg 2 = 6 ∧ orbPoints cfg 3 = 7) ∧
      ∀ (src : ℕ → ℚ) (combo : ℚ) (floats : List FloatText) (x y : ℚ) (k : ℕ),
        (breakCombo src combo floats x y k).2.1 = 0 := by
  refine ⟨?_, ?_, ?_⟩
  · intro pr src cfg pl acc o h
    unfold pickupOrb
    rw [if_pos h]
    exact ⟨rfl, rfl⟩
  · intro cfg h5 h1
    unfold orbPoints jsRound
    rw [h5, h1]
    norm_num [numOr, max_def, min_def]
  · intro src combo floats x y k
    unfold breakCombo
    split <;> rfl

/-- An orb sitting on the demo player. -/
def demoOrb : Orb := ⟨100, 100, 0, 0, 12, 5, 10, 0⟩

/-- Witness for C6: picking `demoOrb` up at combo 0 under the default
config increments the combo to 1 and awards `orbPoints` at combo 1,
which is 5; a combo break resets to 0. -/
theorem orb_pickup_scoring_witness :
    circleCircle demoPlayer.x demoPlayer.y demoPlayer.r demoOrb.x demoOrb.y demoOrb.r = true ∧
      (pickupOrb trivPrims zeroSrc defaultConfig demoPlayer ⟨[], 0, 0, [], [], 0⟩ demoOrb).combo =
        min (max 1 (numOr defaultConfig.scoring.orbComboMax 30)) (0 + 1) ∧
      (pickupOrb trivPrims zeroSrc defaultConfig demoPlayer ⟨[], 0, 0, [], [], 0⟩ demoOrb).score =
        0 + ((orbPoints defaultConfig
          (min (max 1 (numOr defaultConfig.scoring.orbComboMax 30)) (0 + 1)) : ℤ) : ℚ) ∧
      orbPoints defaultConfig 1 = 5 ∧ orbPoints defaultConfig 2 = 6 ∧
      orbPoints defaultConfig 3 = 7 ∧
      (breakCombo zeroSrc 3 [] 0 0 0).2.1 = 0 := by
  have hc : circleCircle demoPlayer.x demoPlayer.y demoPlayer.r demoOrb.x demoOrb.y demoOrb.r =
      true := by
    norm_num [circleCircle, demoPlayer, demoOrb]
  have h1 := orb_pickup_scoring.1 trivPrims zeroSrc defaultConfig demoPlayer
    ⟨[], 0, 0, [], [], 0⟩ demoOrb hc
  have h2 := orb_pickup_scoring.2.1 defaultConfig rfl rfl
  exact ⟨hc, h1.1, h1.2, h2.1, h2.2.1, h2.2.2,
    orb_pickup_scoring.2.2 zeroSrc 3 [] 0 0 0⟩

/-! ## C7 — game over is terminal -/

/-- C7: (i) once the state is `OVER`, any number of further simulation
steps leaves the entire game state (entities, score, combo) unchanged;
(ii) from `PLAY`, if after the tick's motion phase the player overlaps
some pipe while invulnerability remaining is ≤ 0, that same tick ends in
the `OVER` state. -/
theorem gameOver_terminal :
    (∀ (pr : Prims) (cfg : Cfg) (src : ℕ → ℚ) (trail : TrailId) (fuel : ℕ) (move : Move)
        (dt : ℚ) (s : GameState) (n : ℕ), s.state = GState.over →
        (gameUpdate pr cfg src trail fuel move dt)^[n] s = s) ∧
      ∀ (pr : Prims) (cfg : Cfg) (src : ℕ → ℚ) (trail : TrailId) (fuel : ℕ) (move : Move)
        (dt : ℚ) (s : GameState), s.state = GState.play →
        (stepCore pr cfg src trail fuel move dt s).player.invT ≤ 0 →
        (stepCore pr cfg src trail fuel move dt s).pipes.any
          (collides (stepCore pr cfg src trail fuel move dt s).player) = true →
        (gameUpdate pr cfg src trail fuel move dt s).state = GState.over := by
  constructor
  · intro pr cfg src trail fuel move dt s n h
    induction n with
    | zero => rfl
    | succ m ih => rw [Function.iterate_succ_apply, gameUpdate_frozen _ _ _ _ _ _ _ _ h]; exact ih
  · intro pr cfg src trail fuel move dt s h h1 h2
    unfold gameUpdate
    rw [if_neg (by rw [h]; intro hc; cases hc), if_neg (by rw [h]; simp)]
    dsimp only
    rw [if_pos ⟨h1, h2⟩]

/-- A `PLAY` state with a stationary unscored pipe overlapping the
(non-invulnerable) player. -/
def collideDemoState : GameState := { demoState with pipes := [pipeAtPlayer] }

/-- The common simp set evaluating the embedded update pipeline on
concrete states (the kernel cannot reduce `ℚ` arithmetic, so concrete
runs are evaluated by `norm_num` with these unfoldings). -/
theorem collideDemo_invT :
    (stepCore trivPrims defaultConfig zeroSrc TrailId.classic 0 ⟨0, 0⟩ SIM_DT
      collideDemoState).player.invT ≤ 0 := by
  norm_num [stepCore, timersPass, tickCooldowns, updatePlayerPass, updatePlayerFn, norm2,
    approach, emitTrailPass, trailStyle, trailParticles, jsMod, jsTrunc, jsRound, sparklesPass,
    skillUI, spawnPipesPass, spawnPipesLoop, specialPass, orbSpawnPass, gatesPerfectPass,
    pipesMovePass, Pipe.update, orbExpiryPass, Orb.update, Orb.dead, orbPickupPass, pickupOrb,
    breakCombo, mkFloatText, randR, numOr, clamp, lerp, margin, difficulty01, trivPrims,
    defaultConfig, demoState, demoPlayer, SIM_DT, zeroSrc, max_def, min_def, collideDemoState,
    pipeAtPlayer, mkPipe, collides, circleRect, circleCircle]

theorem collideDemo_hit :
    (stepCore trivPrims defaultConfig zeroSrc TrailId.classic 0 ⟨0, 0⟩ SIM_DT
        collideDemoState).pipes.any
      (collides (stepCore trivPrims defaultConfig zeroSrc TrailId.classic 0 ⟨0, 0⟩ SIM_DT
        collideDemoState).player) = true := by
  norm_num [stepCore, timersPass, tickCooldowns, updatePlayerPass, updatePlayerFn, norm2,
    approach, emitTrailPass, trailStyle, trailParticles, jsMod, jsTrunc, jsRound, sparklesPass,
    skillUI, spawnPipesPass, spawnPipesLoop, specialPass, orbSpawnPass, gatesPerfectPass,
    pipesMovePass, Pipe.update, orbExpiryPass, Orb.update, Orb.dead, orbPickupPass, pickupOrb,
    breakCombo, mkFloatText, randR, numOr, clamp, lerp, margin, difficulty01, trivPrims,
    defaultConfig, demoState, demoPlayer, SIM_DT, zeroSrc, max_def, min_def, collideDemoState,
    pipeAtPlayer, mkPipe, collides, circleRect, circleCircle]

/-! ## C1 — replay determinism

Live recording and playback drive the *same* `Game.update` with the same
tick inputs; the random source is `createTapeRandRecorder(seed, tape)`
live (whose value stream is the seeded stream) and, in playback,
`createSeededRand(seed)` installed at main.js 381 — the same stream.
Within one synchronous tick of `frame`, `input.getMove()` at action- and
update-time equals the snapshot taken at the top of the tick, and the
cursor mutations performed before each action are exactly the recorded
activation-time cursors, so replaying the recorded tick log step-by-step
reproduces the live run. -/

/-- Playing the recorded tick log back from the same starting state
reproduces the live run's final state and full post-tick state trace. -/
theorem liveRun_replayRun (pr : Prims) (cfg : Cfg) (src : ℕ → ℚ) (trail : TrailId)
    (fuel : ℕ) (dt : ℚ) (envs : List LiveEnv) :
    ∀ s : GameState, s.state = GState.play →
      replayRun pr cfg src trail fuel dt (liveRun pr cfg src trail fuel dt envs s).2.1 s =
        ((liveRun pr cfg src trail fuel dt envs s).1,
          (liveRun pr cfg src trail fuel dt envs s).2.2) := by
  induction envs with
  | nil => intro s _; rfl
  | cons e es ih =>
    intro s h
    have hs1 : (applyActions pr cfg src e.move e.pending s).state = GState.play := by
      rw [applyActions_state]; exact h
    by_cases h2 : (gameUpdate pr cfg src trail fuel e.move dt
        (applyActions pr cfg src e.move e.pending s)).state = GState.over
    · simp only [liveRun, replayRun, h, reduceIte, h2]
    · have hplay : (gameUpdate pr cfg src trail fuel e.move dt
          (applyActions pr cfg src e.move e.pending s)).state = GState.play := by
        rcases gameUpdate_state_play pr cfg src trail fuel e.move dt _ hs1 with hp | ho
        · exact hp
        · exact absurd ho h2
      simp only [liveRun, replayRun, h, reduceIte, h2, if_false, List.nil_append,
        List.singleton_append, List.cons_append, ih _ hplay]

/-- C1: replay determinism.  For every seed, initial `PLAY` state and
live tick-input sequence, feeding the recorded tick log (movement
intent, cursor, drained actions per tick) back through the replay player
with the seeded random stream reproduces the live run exactly:
identical final state, identical score, identical entity states after
every tick, and an identical termination tick index (the traces have
equal length, and playback halts at the same tick the live run ended). -/
theorem replay_determinism (pr : Prims) (cfg : Cfg) (trail : TrailId) (fuel : ℕ)
    (seed : List ℕ) (envs : List LiveEnv) (s0 : GameState) (h0 : s0.state = GState.play) :
    (replayRun pr cfg (mulberrySeq seed) trail fuel SIM_DT
        (liveRun pr cfg (mulberrySeq seed) trail fuel SIM_DT envs s0).2.1 s0).1 =
        (liveRun pr cfg (mulberrySeq seed) trail fuel SIM_DT envs s0).1 ∧
      (replayRun pr cfg (mulberrySeq seed) trail fuel SIM_DT
          (liveRun pr cfg (mulberrySeq seed) trail fuel SIM_DT envs s0).2.1 s0).2 =
        (liveRun pr cfg (mulberrySeq seed) trail fuel SIM_DT envs s0).2.2 ∧
      (replayRun pr cfg (mulberrySeq seed) trail fuel SIM_DT
          (liveRun pr cfg (mulberrySeq seed) trail fuel SIM_DT envs s0).2.1 s0).1.score =
        (liveRun pr cfg (mulberrySeq seed) trail fuel SIM_DT envs s0).1.score ∧
      (replayRun pr cfg (mulberrySeq seed) trail fuel SIM_DT
          (liveRun pr cfg (mulberrySeq seed) trail fuel SIM_DT envs s0).2.1 s0).2.length =
        (liveRun pr cfg (mulberrySeq seed) trail fuel SIM_DT envs s0).2.2.length := by
  have h := liveRun_replayRun pr cfg (mulberrySeq seed) trail fuel SIM_DT envs s0 h0
  refine ⟨?_, ?_, ?_, ?_⟩ <;> rw [h]

/-- Witness for C1: a one-tick live run from `demoState` under seed "x"
replays to the same final state, score, trace and termination index. -/
theorem replay_determinism_witness :
    demoState.state = GState.play ∧
      (replayRun trivPrims defaultConfig (mulberrySeq [120]) TrailId.classic 0 SIM_DT
          (liveRun trivPrims defaultConfig (mulberrySeq [120]) TrailId.classic 0 SIM_DT
            [⟨⟨0, 0⟩, ⟨0, 0, false⟩, []⟩] demoState).2.1 demoState).1 =
        (liveRun trivPrims defaultConfig (mulberrySeq [120]) TrailId.classic 0 SIM_DT
          [⟨⟨0, 0⟩, ⟨0, 0, false⟩, []⟩] demoState).1 ∧
      (replayRun trivPrims defaultConfig (mulberrySeq [120]) TrailId.classic 0 SIM_DT
          (liveRun trivPrims defaultConfig (mulberrySeq [120]) TrailId.classic 0 SIM_DT
            [⟨⟨0, 0⟩, ⟨0, 0, false⟩, []⟩] demoState).2.1 demoState).2.length =
        (liveRun trivPrims defaultConfig (mulberrySeq [120]) TrailId.classic 0 SIM_DT
          [⟨⟨0, 0⟩, ⟨0, 0, false⟩, []⟩] demoState).2.2.length :=
  ⟨rfl,
    (replay_determinism trivPrims defaultConfig TrailId.classic 0 [120]
      [⟨⟨0, 0⟩, ⟨0, 0, false⟩, []⟩] demoState rfl).1,
    (replay_determinism trivPrims defaultConfig TrailId.classic 0 [120]
      [⟨⟨0, 0⟩, ⟨0, 0, false⟩, []⟩] demoState rfl).2.2.2⟩

/-! ## C9 — dash semantics (corrected)

The claim says the dash locks velocity to the direction cached at
activation for the whole dash.  In the code, `_updatePlayer` *re-caches*
the dash direction from the current movement intent on every tick of the
dash (game.js 629), so steering mid-dash changes the direction; only the
speed magnitude is locked.  The cooldown does start at activation. -/

/-- The claim as stated: while dash remaining is positive, the velocity
equals the previously cached dash direction times the configured dash
speed, for every movement intent. -/
def dashLockClaim : Prop :=
  ∀ (pr : Prims) (cfg : Cfg) (src : ℕ → ℚ) (trail : TrailId) (fuel : ℕ) (move : Move)
    (dt : ℚ) (s : GameState), s.state = GState.play →
    0 < (gameUpdate pr cfg src trail fuel move dt s).player.dashT →
    (gameUpdate pr cfg src trail fuel move dt s).player.vx =
        s.player.dashVX * max 0 (numOr cfg.skills.dash.speed 0) ∧
      (gameUpdate pr cfg src trail fuel move dt s).player.vy =
        s.player.dashVY * max 0 (numOr cfg.skills.dash.speed 0)

/-- A mid-dash state: dash cached rightward (`dashVX = 1`), 0.1 s left. -/
def dashDemoState : GameState :=
  { demoState with player := { demoPlayer with dashT := 0.1, dashVX := 1, dashVY := 0 } }

/-- C9 counterexample: stepping `dashDemoState` with upward intent
`(0, −1)` yields velocity `(0, −900)`, not the cached rightward
`(900, 0)` the claim demands — the dash is steerable mid-flight. -/
theorem dash_not_locked_to_activation_direction : ¬dashLockClaim := by
  intro hcl
  have hd : 0 < (gameUpdate unitPrims defaultConfig zeroSrc TrailId.classic 0 ⟨0, -1⟩ SIM_DT
      dashDemoState).player.dashT := by
    rw [gameUpdate_player _ _ _ _ _ _ _ _ rfl]
    norm_num [updatePlayerFn, norm2, approach, numOr, clamp, unitPrims, dashDemoState,
      demoState, demoPlayer, defaultConfig, SIM_DT, max_def, min_def]
  have h := hcl unitPrims defaultConfig zeroSrc TrailId.classic 0 ⟨0, -1⟩ SIM_DT
    dashDemoState rfl hd
  have hvx : (gameUpdate unitPrims defaultConfig zeroSrc TrailId.classic 0 ⟨0, -1⟩ SIM_DT
      dashDemoState).player.vx = 0 := by
    rw [gameUpdate_player _ _ _ _ _ _ _ _ rfl]
    norm_num [updatePlayerFn, norm2, approach, numOr, clamp, unitPrims, dashDemoState,
      demoState, demoPlayer, defaultConfig, SIM_DT, max_def, min_def]
  rw [hvx] at h
  norm_num [dashDemoState, demoState, demoPlayer, defaultConfig, numOr, max_def] at h

/-- During a dash tick, the velocity is the *current* nonzero intent
direction (else the cached direction) times the configured dash speed. -/
theorem updatePlayerFn_dash_vel (pr : Prims) (cfg : Cfg) (move : Move) (dt W H : ℚ)
    (p : Player) (hd : (if p.dashT > 0 then max 0 (p.dashT - dt) else p.dashT) > 0) :
    ((norm2 pr move.dx move.dy).len > 0 →
        (updatePlayerFn pr cfg move dt W H p).vx =
            (norm2 pr move.dx move.dy).x * max 0 (numOr cfg.skills.dash.speed 0) ∧
          (updatePlayerFn pr cfg move dt W H p).vy =
            (norm2 pr move.dx move.dy).y * max 0 (numOr cfg.skills.dash.speed 0)) ∧
      (¬(norm2 pr move.dx move.dy).len > 0 →
        (updatePlayerFn pr cfg move dt W H p).vx =
            p.dashVX * max 0 (numOr cfg.skills.dash.speed 0) ∧
          (updatePlayerFn pr cfg move dt W H p).vy =
            p.dashVY * max 0 (numOr cfg.skills.dash.speed 0)) := by
  unfold updatePlayerFn
  dsimp only
  split_ifs <;> constructor <;> intro hn <;> simp_all

/-- C9 amended: dash locks the player's *speed*, not the activation-time
direction: on every tick with dash remaining positive the velocity is the
current nonzero movement intent (normalised), else the cached direction,
times the constant configured dash speed; and activation itself starts
the dash cooldown immediately (not at dash end) while setting the dash
duration. -/
theorem dash_steering_and_cooldown :
    (∀ (pr : Prims) (cfg : Cfg) (src : ℕ → ℚ) (trail : TrailId) (fuel : ℕ) (move : Move)
        (dt : ℚ) (s : GameState), s.state = GState.play →
        (if s.player.dashT > 0 then max 0 (s.player.dashT - dt) else s.player.dashT) > 0 →
        ((norm2 pr move.dx move.dy).len > 0 →
            (gameUpdate pr cfg src trail fuel move dt s).player.vx =
                (norm2 pr move.dx move.dy).x * max 0 (numOr cfg.skills.dash.speed 0) ∧
              (gameUpdate pr cfg src trail fuel move dt s).player.vy =
                (norm2 pr move.dx move.dy).y * max 0 (numOr cfg.skills.dash.speed 0)) ∧
          (¬(norm2 pr move.dx move.dy).len > 0 →
            (gameUpdate pr cfg src trail fuel move dt s).player.vx =
                s.player.dashVX * max 0 (numOr cfg.skills.dash.speed 0) ∧
              (gameUpdate pr cfg src trail fuel move dt s).player.vy =
                s.player.dashVY * max 0 (numOr cfg.skills.dash.speed 0))) ∧
      ∀ (pr : Prims) (cfg : Cfg) (src : ℕ → ℚ) (move : Move) (cursor : Cursor)
        (s : GameState), ¬s.cds.get SkillName.dash > 0 →
        (useSkill pr cfg src move cursor SkillName.dash s).cds.get SkillName.dash =
            max 0 (numOr cfg.skills.dash.cooldown 0) ∧
          (useSkill pr cfg src move cursor SkillName.dash s).player.dashT =
            clamp (numOr cfg.skills.dash.duration 0) 0 1.2 := by
  constructor
  · intro pr cfg src trail fuel move dt s h hd
    rw [gameUpdate_player _ _ _ _ _ _ _ _ h]
    exact updatePlayerFn_dash_vel pr cfg move dt s.W s.H s.player hd
  · intro pr cfg src move cursor s hcd
    unfold useSkill
    rw [if_neg hcd]
    dsimp only
    exact ⟨Cds.get_set_same _ _ _, rfl⟩

/-- Witness for C9 (amended): on `dashDemoState` with upward intent the
dash tick keeps running (`dashT > 0` after decrement) and the velocity is
the upward unit intent times the default 900 dash speed; dash activation
from `demoState` starts the 1.15 s cooldown at once and sets the 0.18 s
dash duration. -/
theorem dash_steering_and_cooldown_witness :
    dashDemoState.state = GState.play ∧
      (if dashDemoState.player.dashT > 0 then max 0 (dashDemoState.player.dashT - SIM_DT)
          else dashDemoState.player.dashT) > 0 ∧
      (norm2 unitPrims (0 : ℚ) (-1 : ℚ)).len > 0 ∧
      (gameUpdate unitPrims defaultConfig zeroSrc TrailId.classic 0 ⟨0, -1⟩ SIM_DT
          dashDemoState).player.vx =
        (norm2 unitPrims (0 : ℚ) (-1 : ℚ)).x * max 0 (numOr defaultConfig.skills.dash.speed 0) ∧
      (gameUpdate unitPrims defaultConfig zeroSrc TrailId.classic 0 ⟨0, -1⟩ SIM_DT
          dashDemoState).player.vy =
        (norm2 unitPrims (0 : ℚ) (-1 : ℚ)).y * max 0 (numOr defaultConfig.skills.dash.speed 0) ∧
      (useSkill trivPrims defaultConfig zeroSrc ⟨0, 0⟩ ⟨0, 0, false⟩ SkillName.dash
          demoState).cds.get SkillName.dash = max 0 (numOr defaultConfig.skills.dash.cooldown 0) ∧
      (useSkill trivPrims defaultConfig zeroSrc ⟨0, 0⟩ ⟨0, 0, false⟩ SkillName.dash
          demoState).player.dashT = clamp (numOr defaultConfig.skills.dash.duration 0) 0 1.2 := by
  have hd : (if dashDemoState.player.dashT > 0 then max 0 (dashDemoState.player.dashT - SIM_DT)
      else dashDemoState.player.dashT) > 0 := by
    norm_num [dashDemoState, demoState, demoPlayer, SIM_DT, max_def]
  have hn : (norm2 unitPrims (0 : ℚ) (-1 : ℚ)).len > 0 := by
    norm_num [norm2, unitPrims]
  have hvel := ((dash_steering_and_cooldown.1 unitPrims defaultConfig zeroSrc TrailId.classic 0
    ⟨0, -1⟩ SIM_DT dashDemoState rfl hd).1 hn)
  have hact := dash_steering_and_cooldown.2 trivPrims defaultConfig zeroSrc ⟨0, 0⟩ ⟨0, 0, false⟩
    demoState (by norm_num [demoState, Cds.get])
  exact ⟨rfl, hd, hn, hvel.1, hvel.2, hact.1, hact.2⟩

/-! ## C10 — player containment invariant -/

/-- After `_updatePlayer`, the player's centre is clamped into the play
area inset by `r + 2` (whenever that inset box is nonempty). -/
theorem updatePlayerFn_bounds (pr : Prims) (cfg : Cfg) (move : Move) (dt W H : ℚ) (p : Player)
    (hW : p.r + 2 ≤ W - (p.r + 2)) (hH : p.r + 2 ≤ H - (p.r + 2)) :
    p.r + 2 ≤ (updatePlayerFn pr cfg move dt W H p).x ∧
      (updatePlayerFn pr cfg move dt W H p).x ≤ W - (p.r + 2) ∧
      p.r + 2 ≤ (updatePlayerFn pr cfg move dt W H p).y ∧
      (updatePlayerFn pr cfg move dt W H p).y ≤ H - (p.r + 2) := by
  unfold updatePlayerFn
  dsimp only
  split_ifs <;>
    exact ⟨le_max_left _ _, max_le hW (min_le_left _ _), le_max_left _ _,
      max_le hH (min_le_left _ _)⟩

/-- C10: after every `PLAY` tick, and after every executed teleport
activation, the player's centre lies within
`[r + 2, W − r − 2] × [r + 2, H − r − 2]` (for a play area at least as
large as that inset requires). -/
theorem player_containment :
    (∀ (pr : Prims) (cfg : Cfg) (src : ℕ → ℚ) (trail : TrailId) (fuel : ℕ) (move : Move)
        (dt : ℚ) (s : GameState), s.state = GState.play →
        s.player.r + 2 ≤ s.W - (s.player.r + 2) → s.player.r + 2 ≤ s.H - (s.player.r + 2) →
        s.player.r + 2 ≤ (gameUpdate pr cfg src trail fuel move dt s).player.x ∧
          (gameUpdate pr cfg src trail fuel move dt s).player.x ≤ s.W - (s.player.r + 2) ∧
          s.player.r + 2 ≤ (gameUpdate pr cfg src trail fuel move dt s).player.y ∧
          (gameUpdate pr cfg src trail fuel move dt s).player.y ≤ s.H - (s.player.r + 2)) ∧
      ∀ (pr : Prims) (cfg : Cfg) (src : ℕ → ℚ) (move : Move) (cursor : Cursor)
        (s : GameState), cursor.has = true → ¬s.cds.get SkillName.teleport > 0 →
        s.player.r + 2 ≤ s.W - (s.player.r + 2) → s.player.r + 2 ≤ s.H - (s.player.r + 2) →
        s.player.r + 2 ≤ (useSkill pr cfg src move cursor SkillName.teleport s).player.x ∧
          (useSkill pr cfg src move cursor SkillName.teleport s).player.x ≤
            s.W - (s.player.r + 2) ∧
          s.player.r + 2 ≤ (useSkill pr cfg src move cursor SkillName.teleport s).player.y ∧
          (useSkill pr cfg src move cursor SkillName.teleport s).player.y ≤
            s.H - (s.player.r + 2) := by
  constructor
  · intro pr cfg src trail fuel move dt s h hW hH
    rw [gameUpdate_player _ _ _ _ _ _ _ _ h]
    exact updatePlayerFn_bounds pr cfg move dt s.W s.H s.player hW hH
  · intro pr cfg src move cursor s hhas hcd hW hH
    unfold useSkill
    rw [if_neg hcd]
    dsimp only
    rw [if_neg (fun hcond => hcond hhas)]
    dsimp only
    exact ⟨le_max_left _ _, max_le hW (min_le_left _ _), le_max_left _ _,
      max_le hH (min_le_left _ _)⟩

/-- Witness for C10 on the 200×200 demo state (player radius 10): both a
tick step and a teleport to the recorded pointer `(50, 60)` keep the
centre within `[12, 188]²`. -/
theorem player_containment_witness :
    demoState.state = GState.play ∧
      demoState.player.r + 2 ≤ demoState.W - (demoState.player.r + 2) ∧
      demoState.player.r + 2 ≤ demoState.H - (demoState.player.r + 2) ∧
      (demoState.player.r + 2 ≤
          (gameUpdate trivPrims defaultConfig zeroSrc TrailId.classic 0 ⟨1, 0⟩ SIM_DT
            demoState).player.x ∧
        (gameUpdate trivPrims defaultConfig zeroSrc TrailId.classic 0 ⟨1, 0⟩ SIM_DT
            demoState).player.x ≤ demoState.W - (demoState.player.r + 2) ∧
        demoState.player.r + 2 ≤
          (gameUpdate trivPrims defaultConfig zeroSrc TrailId.classic 0 ⟨1, 0⟩ SIM_DT
            demoState).player.y ∧
        (gameUpdate trivPrims defaultConfig zeroSrc TrailId.classic 0 ⟨1, 0⟩ SIM_DT
            demoState).player.y ≤ demoState.H - (demoState.player.r + 2)) ∧
      demoState.player.r + 2 ≤
          (useSkill trivPrims defaultConfig zeroSrc ⟨0, 0⟩ ⟨50, 60, true⟩ SkillName.teleport
            demoState).player.x ∧
        (useSkill trivPrims defaultConfig zeroSrc ⟨0, 0⟩ ⟨50, 60, true⟩ SkillName.teleport
            demoState).player.x ≤ demoState.W - (demoState.player.r + 2) ∧
        demoState.player.r + 2 ≤
          (useSkill trivPrims defaultConfig zeroSrc ⟨0, 0⟩ ⟨50, 60, true⟩ SkillName.teleport
            demoState).player.y ∧
        (useSkill trivPrims defaultConfig zeroSrc ⟨0, 0⟩ ⟨50, 60, true⟩ SkillName.teleport
            demoState).player.y ≤ demoState.H - (demoState.player.r + 2) := by
  have hW : demoState.player.r + 2 ≤ demoState.W - (demoState.player.r + 2) := by
    norm_num [demoState, demoPlayer]
  have hH : demoState.player.r + 2 ≤ demoState.H - (demoState.player.r + 2) := by
    norm_num [demoState, demoPlayer]
  exact ⟨rfl, hW, hH,
    player_containment.1 trivPrims defaultConfig zeroSrc TrailId.classic 0 ⟨1, 0⟩ SIM_DT
      demoState rfl hW hH,
    player_containment.2 trivPrims defaultConfig zeroSrc ⟨0, 0⟩ ⟨50, 60, true⟩ demoState rfl
      (by norm_num [demoState, Cds.get]) hW hH⟩

/-- Witness for C7: a frozen `OVER` state is a fixed point of three more
steps, and the overlapping-pipe `PLAY` state `collideDemoState`
transitions to `OVER` within its tick. -/
theorem gameOver_terminal_witness :
    ({ demoState with state := GState.over } : GameState).state = GState.over ∧
      (gameUpdate trivPrims defaultConfig zeroSrc TrailId.classic 0 ⟨0, 0⟩ SIM_DT)^[3]
          { demoState with state := GState.over } = { demoState with state := GState.over } ∧
      collideDemoState.state = GState.play ∧
      (gameUpdate trivPrims defaultConfig zeroSrc TrailId.classic 0 ⟨0, 0⟩ SIM_DT
          collideDemoState).state = GState.over :=
  ⟨rfl,
    gameOver_terminal.1 trivPrims defaultConfig zeroSrc TrailId.classic 0 ⟨0, 0⟩ SIM_DT _ 3 rfl,
    rfl,
    gameOver_terminal.2 trivPrims defaultConfig zeroSrc TrailId.classic 0 ⟨0, 0⟩ SIM_DT
      collideDemoState rfl collideDemo_invT collideDemo_hit⟩

end FlappyBingus
